import Mathlib

set_option maxRecDepth 100000

/-!
Verification development for the MoviePilot-Plugins "inviterinfo" plugin
(`plugins.v2/inviterinfo`).  The Python sources are shallowly embedded as
executable Lean definitions:

* `get_page_source` (sites/__init__.py, retrying HTTP fetcher) as a pure
  loop over an environment that supplies the outcome of each request;
* the NexusPHP extraction engine (sites/nexusphp.py) over an explicit HTML
  tree type together with a small evaluator for exactly the XPath subset
  used by the plugin's rule lists;
* the per-page user-id extraction cascade of `_get_user_id`
  (sites/__init__.py) over a page model;
* the orchestrator loop `__get_all_site_inviter_info` (__init__.py) over an
  association-list result store;
* handler selection `get_handler_for_site` (module_loader.py).

Network, file system and logging are modelled as explicit inputs/outputs;
Python exceptions that escape a modelled region are modelled as `Option`
failures.  All definitions are computable so that concrete runs can be
checked with `decide`/`rfl`.
-/

namespace InviterInfo

/-! ### String utilities

Python string operations used by the plugin, implemented over `List Char`
so that everything reduces in the kernel.  `strContains s t` is Python's
`t in s`; `afterFirst`/`beforeFirst`/`afterLast` are the pieces of
`str.split` the code uses; `pyStrip` is `str.strip()`.
-/

/-- Make a string from a list of characters. -/
def chStr (cs : List Char) : String := ⟨cs⟩

/-- Boolean list-prefix test. -/
def listPrefixOf : List Char → List Char → Bool
  | [], _ => true
  | _ :: _, [] => false
  | a :: as, b :: bs => a == b && listPrefixOf as bs

/-- Boolean infix (substring) test on character lists. -/
def listInfix (nee : List Char) : List Char → Bool
  | [] => listPrefixOf nee []
  | c :: cs => listPrefixOf nee (c :: cs) || listInfix nee cs

/-- Python's `needle in hay` on strings. -/
def strContains (hay nee : String) : Bool := listInfix nee.data hay.data

/-- Whitespace in the sense of Python's `str.strip` / `\s` (ASCII portion). -/
def isWsC (c : Char) : Bool :=
  c == ' ' || c == '\t' || c == '\n' || c == '\r' || c == '\x0b' || c == '\x0c'

/-- Python `str.strip()`. -/
def pyStrip (s : String) : String :=
  chStr (((s.data.dropWhile isWsC).reverse.dropWhile isWsC).reverse)

/-- Drop everything up to and including the first occurrence of `sep`;
when `sep` does not occur the whole list is returned (this is Python's
`s.split(sep, 1)[-1]`). -/
def afterFirstL (sep : List Char) : List Char → List Char
  | [] => []
  | c :: cs => if listPrefixOf sep (c :: cs) then (c :: cs).drop sep.length
               else afterFirstL sep cs

/-- Python `s.split(sep, 1)[-1]`: the part after the first occurrence of
`sep`, or all of `s` when `sep` is absent. -/
def afterFirst (s sep : String) : String :=
  if strContains s sep then chStr (afterFirstL sep.data s.data) else s

/-- Characters before the first occurrence of `sep` (Python
`s.split(sep)[0]`); the whole list when `sep` is absent. -/
def beforeFirstL (sep : List Char) : List Char → List Char
  | [] => []
  | c :: cs => if listPrefixOf sep (c :: cs) then []
               else c :: beforeFirstL sep cs

/-- Python `s.split(sep)[0]`. -/
def beforeFirst (s sep : String) : String := chStr (beforeFirstL sep.data s.data)

/-- Suffix after the last occurrence of `sep`, preferring occurrences
that start later; `none` when `sep` does not occur.  For the
non-self-overlapping separators the plugin uses (such as `"id="`) this
agrees with Python `s.split(sep)[-1]`. -/
def afterLastL (sep : List Char) : List Char → Option (List Char)
  | [] => none
  | c :: cs =>
    match afterLastL sep cs with
    | some r => some r
    | none => if listPrefixOf sep (c :: cs) then some ((c :: cs).drop sep.length)
              else none

/-- Python `s.split(sep)[-1]` on strings (`s` itself when `sep` is
absent). -/
def afterLast (s sep : String) : String :=
  match afterLastL sep.data s.data with
  | some r => chStr r
  | none => s

/-- Python `s.split(sep)[1]` (the chunk between the first and second
occurrence of `sep`, or everything after the first occurrence when `sep`
occurs only once).  Only called when `sep` occurs in `s`. -/
def secondChunk (s sep : String) : String := beforeFirst (afterFirst s sep) sep

/-- Python `s.startswith(t)`. -/
def strStarts (s t : String) : Bool := listPrefixOf t.data s.data

/-- ASCII lower-casing of a character; other characters are unchanged
(matches Python `str.lower()` on the ASCII identifiers the plugin uses). -/
def lowerC (c : Char) : Char :=
  if 'A' ≤ c ∧ c ≤ 'Z' then Char.ofNat (c.toNat + 32) else c

/-- ASCII lower-casing of a string. -/
def strLower (s : String) : String := chStr (s.data.map lowerC)

/-- Python `s.isdigit()` for ASCII digit strings (false on the empty
string). -/
def isDigits (s : String) : Bool := s.data ≠ [] && s.data.all Char.isDigit

/-- Python `str(n)` for an integer. -/
def intStr (n : Int) : String := toString n

/-- Concatenation of a list of strings. -/
def strJoin (l : List String) : String := chStr (l.flatMap String.data)

/-- Length of a string in code points, as Python `len`. -/
def strLen (s : String) : Nat := s.data.length

/-! ### HTTP fetcher (`get_page_source`, sites/__init__.py lines 90-149)

Each request attempt either yields an HTTP response (status plus body) or
fails with one of the transport exceptions the code catches.  The loop
mirrors the Python `for i in range(retry)` body: `raise_for_status`
converts statuses 400-599 into an `HTTPError` that — like the transport
errors — is caught inside the loop, a two-second sleep happens after every
failed attempt except the last, and after the loop the empty string is
returned.
-/

/-- Outcome the network produces for one request attempt. -/
inductive Attempt where
  | response (status : Nat) (body : String)
  | connectionError
  | timeoutError
  | requestError
deriving Repr, DecidableEq

/-- Result of `raise_for_status` plus the surrounding `try`: the body when
the status is outside 400-599, otherwise `none` (every raised exception is
caught by one of the `except` clauses and the loop continues). -/
def attemptBody : Attempt → Option String
  | .response st body => if 400 ≤ st ∧ st < 600 then none else some body
  | _ => none

/-- Observable trace of one `get_page_source` call: the returned string,
how many requests were issued, and the total seconds spent in
`time.sleep(2)` calls. -/
structure FetchTrace where
  result : String
  attemptsMade : Nat
  delaySeconds : Nat
deriving Repr, DecidableEq

/-- Retry loop of `get_page_source`; `remaining` counts the loop
iterations still allowed, `i` the attempts already made and `d` the delay
seconds accumulated so far.  A sleep happens only when further iterations
remain (`if i < retry - 1`). -/
def fetchGo (env : Nat → Attempt) : Nat → Nat → Nat → FetchTrace
  | 0, i, d => { result := "", attemptsMade := i, delaySeconds := d }
  | remaining + 1, i, d =>
    match attemptBody (env i) with
    | some body => { result := body, attemptsMade := i + 1, delaySeconds := d }
    | none => fetchGo env remaining (i + 1) (if remaining = 0 then d else d + 2)

/-- Model of `get_page_source(url, site_info, retry)`: the environment maps
the attempt index to the network outcome; the Python default for `retry`
is 3. -/
def get_page_source (env : Nat → Attempt) (retry : Nat) : FetchTrace :=
  fetchGo env retry 0 0

/-- Status in 400-499, the client-error range of claim C1. -/
def isClientError : Attempt → Bool
  | .response st _ => 400 ≤ st && st < 500
  | _ => false

/-- Failure kinds of claim C7: connection error, timeout, or a 5xx
response. -/
def isRetriableFailure : Attempt → Bool
  | .connectionError => true
  | .timeoutError => true
  | .response st _ => 500 ≤ st && st < 600
  | _ => false

theorem attemptBody_none_of_clientError {a : Attempt}
    (h : isClientError a = true) : attemptBody a = none := by
  cases a with
  | response st body =>
    simp only [isClientError, Bool.and_eq_true, decide_eq_true_eq] at h
    have hr : 400 ≤ st ∧ st < 600 := ⟨h.1, by omega⟩
    simp only [attemptBody, if_pos hr]
  | connectionError => simp [isClientError] at h
  | timeoutError => simp [isClientError] at h
  | requestError => simp [isClientError] at h

theorem attemptBody_none_of_retriable {a : Attempt}
    (h : isRetriableFailure a = true) : attemptBody a = none := by
  cases a with
  | response st body =>
    simp only [isRetriableFailure, Bool.and_eq_true, decide_eq_true_eq] at h
    have hr : 400 ≤ st ∧ st < 600 := ⟨by omega, h.2⟩
    simp only [attemptBody, if_pos hr]
  | connectionError => rfl
  | timeoutError => rfl
  | requestError => rfl

/-- When every attempt fails, the loop runs through all remaining
iterations, sleeping 2 seconds after each failure except the last, and
ends with the empty string. -/
theorem fetchGo_all_fail (env : Nat → Attempt)
    (h : ∀ j, attemptBody (env j) = none) :
    ∀ n i d, fetchGo env n i d =
      { result := "", attemptsMade := i + n, delaySeconds := d + 2 * (n - 1) } := by
  intro n
  induction n with
  | zero => intro i d; simp [fetchGo]
  | succ m ih =>
    intro i d
    simp only [fetchGo, h i]
    cases m with
    | zero => simp [fetchGo]
    | succ k =>
      rw [if_neg (Nat.succ_ne_zero k), ih (i + 1) (d + 2)]
      simp only [FetchTrace.mk.injEq]
      exact ⟨trivial, by omega, by omega⟩

/-! ### HTML documents and the XPath subset used by the plugin

An `Html` value is the parsed tree `lxml.etree.HTML` hands to the
extraction code (element with tag, attributes in document order, children;
or a text node).  Nodes are addressed by their child-index `Path` from the
root so that node identity, document order and the sibling/`following`
axes are well defined.  The evaluator below implements exactly the XPath
constructs appearing in the plugin's rule lists (`//` as
`descendant-or-self::node()/child::…`, `following-sibling`, `following`,
`..`, node tests for a tag, `*` and `text()`, and predicates
`@a='v'`, `contains(@a,'v')`, `text()='v'`, `contains(text(),'v')`,
`contains(.,'v')`, `[1]`, `position()>1` and `not(...)`), with XPath 1.0
semantics: `text()='v'` holds when some text child equals `v`, while
`contains(text(),'v')` converts the node set to the string value of its
first node.
-/

/-- Parsed HTML tree. -/
inductive Html where
  | elem (tag : String) (attrs : List (String × String)) (children : List Html)
  | text (s : String)

/-- Child list of a node. -/
def childrenOf : Html → List Html
  | .elem _ _ cs => cs
  | .text _ => []

/-- Tag of an element node. -/
def tagOf : Html → Option String
  | .elem t _ _ => some t
  | .text _ => none

/-- Attribute lookup on an element. -/
def getAttr (h : Html) (a : String) : Option String :=
  match h with
  | .elem _ attrs _ => (attrs.find? (fun kv => kv.1 == a)).map (fun kv => kv.2)
  | .text _ => none

/-- Text content of a text node. -/
def textOf : Html → Option String
  | .text s => some s
  | _ => none

/-- Direct text-node children of a node, in order. -/
def textChildren (h : Html) : List String :=
  (childrenOf h).filterMap textOf

mutual
/-- All strict-descendant subtrees in document order. -/
def strictDescendants : Html → List Html
  | .text _ => []
  | .elem _ _ cs => sdList cs
/-- Helper of `strictDescendants` over a child list. -/
def sdList : List Html → List Html
  | [] => []
  | c :: cs => (c :: strictDescendants c) ++ sdList cs
end

/-- String value of a node in the XPath sense: the concatenation of all
text in the subtree. -/
def stringValue (h : Html) : String :=
  match h with
  | .text s => s
  | .elem _ _ _ => strJoin ((strictDescendants h).filterMap textOf)

/-- All text strictly below a node, in document order (the node set
`.//text()`). -/
def descTexts (h : Html) : List String :=
  (strictDescendants h).filterMap textOf

/-- Node address: the child indices from the root. -/
abbrev Path := List Nat

mutual
/-- All paths of the tree in document (pre-) order. -/
def allPaths : Html → List Path
  | .text _ => [[]]
  | .elem _ _ cs => [] :: apList 0 cs
/-- Helper of `allPaths` over a child list starting at index `i`. -/
def apList : Nat → List Html → List Path
  | _, [] => []
  | i, c :: cs => (allPaths c).map (fun p => i :: p) ++ apList (i + 1) cs
end

/-- Node at a path, when the path is valid. -/
def getNode : Html → Path → Option Html
  | h, [] => some h
  | h, i :: p =>
    match (childrenOf h)[i]? with
    | some c => getNode c p
    | none => none

/-- Paths of the children of the node at `p`. -/
def childPathsAt (doc : Html) (p : Path) : List Path :=
  match getNode doc p with
  | some n => (List.range (childrenOf n).length).map (fun i => p ++ [i])
  | none => []

/-- Paths of the descendant-or-self nodes of `p`, in document order. -/
def descOrSelfPaths (doc : Html) (p : Path) : List Path :=
  (allPaths doc).filter (fun q => p.isPrefixOf q)

/-- Paths of the following siblings of `p`, in document order. -/
def followingSiblingPaths (doc : Html) (p : Path) : List Path :=
  match p.getLast? with
  | none => []
  | some i =>
    let parent := p.dropLast
    (childPathsAt doc parent).filter (fun q =>
      match q.getLast? with
      | some j => i < j
      | none => false)

/-- Everything strictly after the first occurrence of `p` in a list. -/
def dropThrough (p : Path) : List Path → List Path
  | [] => []
  | q :: rest => if q == p then rest else dropThrough p rest

/-- Paths on the XPath `following` axis of `p`: nodes after `p` in
document order that are not descendants of `p`. -/
def followingPaths (doc : Html) (p : Path) : List Path :=
  (dropThrough p (allPaths doc)).filter (fun q => !(p.isPrefixOf q))

/-- Restrict the document-order path enumeration to a set of paths; this
sorts into document order and removes duplicates, as XPath node sets
require. -/
def docOrderFilter (doc : Html) (ps : List Path) : List Path :=
  (allPaths doc).filter (fun q => ps.contains q)

/-- Axes appearing in the plugin's XPath strings (`//`, `/`,
`/following-sibling::`, `/following::`, `/..`). -/
inductive Axis where
  | descendant
  | child
  | followingSibling
  | following
  | parent
deriving Repr, DecidableEq

/-- Node tests appearing in the plugin's XPath strings. -/
inductive NTest where
  | tag (t : String)
  | anyElem
  | anyText
deriving Repr, DecidableEq

/-- Predicates appearing in the plugin's XPath strings. -/
inductive XPred where
  | top
  | conj (p q : XPred)
  | attrEq (a v : String)
  | attrContains (a v : String)
  | textEq (v : String)
  | textContains (v : String)
  | dotContains (v : String)
  | posEq1
  | posGt1
  | notP (p : XPred)
deriving Repr, DecidableEq

/-- One XPath location step. -/
structure Step where
  axis : Axis
  test : NTest
  pred : XPred
deriving Repr, DecidableEq

/-- Predicate evaluation on the node `n` at 1-based position `pos` within
its candidate list. -/
def evalPred (n : Html) (pos : Nat) : XPred → Bool
  | .top => true
  | .conj p q => evalPred n pos p && evalPred n pos q
  | .attrEq a v => getAttr n a == some v
  | .attrContains a v => strContains ((getAttr n a).getD "") v
  | .textEq v => (textChildren n).any (fun s => s == v)
  | .textContains v => strContains ((textChildren n).head?.getD "") v
  | .dotContains v => strContains (stringValue n) v
  | .posEq1 => pos == 1
  | .posGt1 => decide (1 < pos)
  | .notP p => !evalPred n pos p

/-- Node-test evaluation. -/
def evalTest (n : Html) : NTest → Bool
  | .tag t => tagOf n == some t
  | .anyElem => (tagOf n).isSome
  | .anyText => (textOf n).isSome

/-- Candidate groups an axis generates from one context node; predicates
are applied positionally within each group, which for the `descendant`
encoding of `//` reproduces the
`descendant-or-self::node()/child::…` grouping of libxml. -/
def axisGroups (doc : Html) (p : Path) : Axis → List (List Path)
  | .descendant => (descOrSelfPaths doc p).map (fun q => childPathsAt doc q)
  | .child => [childPathsAt doc p]
  | .followingSibling => [followingSiblingPaths doc p]
  | .following => [followingPaths doc p]
  | .parent => match p with
    | [] => []
    | _ :: _ => [[p.dropLast]]

/-- Apply node test and predicate to one candidate group. -/
def filterGroup (doc : Html) (test : NTest) (pred : XPred) (group : List Path) : List Path :=
  let tested := group.filter (fun q =>
    match getNode doc q with
    | some n => evalTest n test
    | none => false)
  (tested.enum.filter (fun iq =>
    match getNode doc iq.2 with
    | some n => evalPred n (iq.1 + 1) pred
    | none => false)).map (fun iq => iq.2)

/-- Evaluate one location step from a list of context paths. -/
def evalStep (doc : Html) (ctxs : List Path) (st : Step) : List Path :=
  docOrderFilter doc
    (ctxs.flatMap (fun p =>
      (axisGroups doc p st.axis).flatMap (filterGroup doc st.test st.pred)))

/-- Evaluate a step sequence from a list of context paths. -/
def evalSteps (doc : Html) (steps : List Step) (ctxs : List Path) : List Path :=
  steps.foldl (evalStep doc) ctxs

/-- Evaluate an absolute XPath expression from the document root. -/
def evalFromRoot (doc : Html) (steps : List Step) : List Path :=
  evalSteps doc steps [[]]

/-! ### The NexusPHP inviter rule list (sites/nexusphp.py lines 149-327)

Every entry of the Python `inviter_xpaths` list is transcribed, in source
order, into a step sequence for the evaluator above.  The constructor
helpers below name the recurring shapes of those XPath strings.
-/

/-- Step `following-sibling::td[1]`. -/
def fsTd1 : Step := { axis := .followingSibling, test := .tag "td", pred := .posEq1 }

/-- Rule `//td[@class='CLS' and text()='LBL']/following-sibling::td[1]`. -/
def tdExactCls (cls lbl : String) : List Step :=
  [{ axis := .descendant, test := .tag "td", pred := .conj (.attrEq "class" cls) (.textEq lbl) }, fsTd1]

/-- Rule `//td[text()='LBL']/following-sibling::td[1]`. -/
def tdExact (lbl : String) : List Step :=
  [{ axis := .descendant, test := .tag "td", pred := .textEq lbl }, fsTd1]

/-- Rule `//td[@class='CLS' and contains(text(), 'LBL')]/following-sibling::td[1]`. -/
def tdContainsCls (cls lbl : String) : List Step :=
  [{ axis := .descendant, test := .tag "td", pred := .conj (.attrEq "class" cls) (.textContains lbl) }, fsTd1]

/-- Rule `//td[contains(text(), 'LBL')]/following-sibling::td[1]`. -/
def tdContains (lbl : String) : List Step :=
  [{ axis := .descendant, test := .tag "td", pred := .textContains lbl }, fsTd1]

/-- Rule `//table[@class='CLS']//td[contains(text(), 'LBL')]/following-sibling::td[1]`. -/
def tableClassTd (cls lbl : String) : List Step :=
  [{ axis := .descendant, test := .tag "table", pred := .attrEq "class" cls },
   { axis := .descendant, test := .tag "td", pred := .textContains lbl }, fsTd1]

/-- Rule `//table[contains(@class, 'CLS')]//td[contains(text(), 'LBL')]/following-sibling::td[1]`. -/
def tableClassCTd (cls lbl : String) : List Step :=
  [{ axis := .descendant, test := .tag "table", pred := .attrContains "class" cls },
   { axis := .descendant, test := .tag "td", pred := .textContains lbl }, fsTd1]

/-- Rule `//table[@id='ID']//td[contains(text(), 'LBL')]/following-sibling::td[1]`. -/
def tableIdTd (idv lbl : String) : List Step :=
  [{ axis := .descendant, test := .tag "table", pred := .attrEq "id" idv },
   { axis := .descendant, test := .tag "td", pred := .textContains lbl }, fsTd1]

/-- Rule `//tr[contains(., 'LBL')]//td[position()>1]`. -/
def trRowTds (lbl : String) : List Step :=
  [{ axis := .descendant, test := .tag "tr", pred := .dotContains lbl },
   { axis := .descendant, test := .tag "td", pred := .posGt1 }]

/-- Rule `//div[@class='CLS']//li[contains(text(), 'LBL')]`. -/
def divClassLi (cls lbl : String) : List Step :=
  [{ axis := .descendant, test := .tag "div", pred := .attrEq "class" cls },
   { axis := .descendant, test := .tag "li", pred := .textContains lbl }]

/-- Rule `//div[@id='ID']//li[contains(text(), 'LBL')]`. -/
def divIdLi (idv lbl : String) : List Step :=
  [{ axis := .descendant, test := .tag "div", pred := .attrEq "id" idv },
   { axis := .descendant, test := .tag "li", pred := .textContains lbl }]

/-- Rule `//li[contains(text(), 'LBL')]`. -/
def bareLi (lbl : String) : List Step :=
  [{ axis := .descendant, test := .tag "li", pred := .textContains lbl }]

/-- Rule `//UL[@class='CLS']//li[contains(text(), 'LBL')]` for `ul`/`ol`. -/
def listClassLi (container cls lbl : String) : List Step :=
  [{ axis := .descendant, test := .tag container, pred := .attrEq "class" cls },
   { axis := .descendant, test := .tag "li", pred := .textContains lbl }]

/-- Rule `//li[contains(text(), 'LBL')]//INNER[not(contains(text(), 'LBL'))]`. -/
def liInner (lbl inner : String) : List Step :=
  [{ axis := .descendant, test := .tag "li", pred := .textContains lbl },
   { axis := .descendant, test := .tag inner, pred := .notP (.textContains lbl) }]

/-- Rule `//*[contains(text(), 'LBL')]/following-sibling::*`. -/
def anyContainsFs (lbl : String) : List Step :=
  [{ axis := .descendant, test := .anyElem, pred := .textContains lbl },
   { axis := .followingSibling, test := .anyElem, pred := .top }]

/-- Rule `//*[text()='LBL']/following-sibling::*`. -/
def anyExactFs (lbl : String) : List Step :=
  [{ axis := .descendant, test := .anyElem, pred := .textEq lbl },
   { axis := .followingSibling, test := .anyElem, pred := .top }]

/-- Rule `//*[contains(text(), 'LBL')]/..`. -/
def anyContainsParent (lbl : String) : List Step :=
  [{ axis := .descendant, test := .anyElem, pred := .textContains lbl },
   { axis := .parent, test := .anyElem, pred := .top }]

/-- Rule `//*[contains(text(), 'LBL')]/following::*[1]`. -/
def anyContainsFoll1 (lbl : String) : List Step :=
  [{ axis := .descendant, test := .anyElem, pred := .textContains lbl },
   { axis := .following, test := .anyElem, pred := .posEq1 }]

/-- Rule `//*[text()='LBL']/following::*[1]`. -/
def anyExactFoll1 (lbl : String) : List Step :=
  [{ axis := .descendant, test := .anyElem, pred := .textEq lbl },
   { axis := .following, test := .anyElem, pred := .posEq1 }]

/-- Rule `//*[contains(text(), 'LBL')]/following::text()[1]`. -/
def anyContainsFollText1 (lbl : String) : List Step :=
  [{ axis := .descendant, test := .anyElem, pred := .textContains lbl },
   { axis := .following, test := .anyText, pred := .posEq1 }]

/-- Rule `//*[text()='LBL']/following::text()[1]`. -/
def anyExactFollText1 (lbl : String) : List Step :=
  [{ axis := .descendant, test := .anyElem, pred := .textEq lbl },
   { axis := .following, test := .anyText, pred := .posEq1 }]

/-- Rule `//tr[contains(., 'LBL')]`. -/
def trContains (lbl : String) : List Step :=
  [{ axis := .descendant, test := .tag "tr", pred := .dotContains lbl }]

/-- Rule `//T[contains(text(), 'LBL')]`. -/
def tagContains (t lbl : String) : List Step :=
  [{ axis := .descendant, test := .tag t, pred := .textContains lbl }]

/-- Rule `//T[@class='V']`. -/
def tagClassEq (t v : String) : List Step :=
  [{ axis := .descendant, test := .tag t, pred := .attrEq "class" v }]

/-- Rule `//T[contains(@class, 'V')]`. -/
def tagClassContains (t v : String) : List Step :=
  [{ axis := .descendant, test := .tag t, pred := .attrContains "class" v }]

/-- Rule `//T[@id='V']`. -/
def tagIdEq (t v : String) : List Step :=
  [{ axis := .descendant, test := .tag t, pred := .attrEq "id" v }]

/-- Rule `//div[contains(@class, 'CLS')]//*[contains(text(), 'LBL')]`. -/
def divClassCAny (cls lbl : String) : List Step :=
  [{ axis := .descendant, test := .tag "div", pred := .attrContains "class" cls },
   { axis := .descendant, test := .anyElem, pred := .textContains lbl }]

/-- Rule `//body//*[contains(text(), 'LBL')]/following-sibling::*`. -/
def bodyAnyFs (lbl : String) : List Step :=
  [{ axis := .descendant, test := .tag "body", pred := .top },
   { axis := .descendant, test := .anyElem, pred := .textContains lbl },
   { axis := .followingSibling, test := .anyElem, pred := .top }]

/-- Rule `//div[@id='ID']//*[contains(text(), 'LBL')]/following-sibling::*`. -/
def divIdAnyFs (idv lbl : String) : List Step :=
  [{ axis := .descendant, test := .tag "div", pred := .attrEq "id" idv },
   { axis := .descendant, test := .anyElem, pred := .textContains lbl },
   { axis := .followingSibling, test := .anyElem, pred := .top }]

/-- Rule `//div[@class='CLS']//*[contains(text(), 'LBL')]/following-sibling::*`. -/
def divClassAnyFs (cls lbl : String) : List Step :=
  [{ axis := .descendant, test := .tag "div", pred := .attrEq "class" cls },
   { axis := .descendant, test := .anyElem, pred := .textContains lbl },
   { axis := .followingSibling, test := .anyElem, pred := .top }]

/-- Rule `//*[contains(text(), 'LBL')]/following-sibling::text()`. -/
def anyContainsFsText (lbl : String) : List Step :=
  [{ axis := .descendant, test := .anyElem, pred := .textContains lbl },
   { axis := .followingSibling, test := .anyText, pred := .top }]

/-- Rule `//*[text()='LBL']/following-sibling::text()`. -/
def anyExactFsText (lbl : String) : List Step :=
  [{ axis := .descendant, test := .anyElem, pred := .textEq lbl },
   { axis := .followingSibling, test := .anyText, pred := .top }]

/-- First entry of `inviter_xpaths`:
`//td[@class='rowhead' and text()='邀请人']/following-sibling::td[1]`,
the exact table-cell rule of claims C3 and C8. -/
def xpathRowheadExactCn : List Step := tdExactCls "rowhead" "邀请人"

/-- Generic any-element substring rule
`//*[contains(text(), '邀请人')]/following-sibling::*` (the first entry of
the `通用结构` block of `inviter_xpaths`). -/
def xpathGenericFsCn : List Step := anyContainsFs "邀请人"

/-- The `inviter_xpaths` list of sites/nexusphp.py, entry by entry in
source order. -/
def inviter_xpaths : List (List Step) :=
  [xpathRowheadExactCn,
   tdExactCls "rowhead nowrap" "邀请人",
   tdExact "邀请人",
   tdContainsCls "rowhead" "邀请人",
   tdContains "邀请人",
   tdExact "Inviter",
   tdExactCls "rowhead" "Inviter",
   tdContainsCls "rowhead" "Inviter",
   tdContains "Inviter",
   tableClassTd "userdetails" "邀请人",
   tableClassTd "userinfo" "邀请人",
   tableClassTd "profile" "邀请人",
   tableClassTd "userdetails" "Inviter",
   tableClassTd "userinfo" "Inviter",
   tableClassTd "profile" "Inviter",
   tableClassCTd "userdetails" "邀请人",
   tableClassCTd "userinfo" "邀请人",
   tableClassCTd "profile" "邀请人",
   tableClassCTd "userdetails" "Inviter",
   tableClassCTd "userinfo" "Inviter",
   tableClassCTd "profile" "Inviter",
   tableIdTd "userdetails" "邀请人",
   tableIdTd "userinfo" "邀请人",
   tableIdTd "profile" "邀请人",
   tableIdTd "userdetails" "Inviter",
   tableIdTd "userinfo" "Inviter",
   tableIdTd "profile" "Inviter",
   trRowTds "邀请人",
   trRowTds "Inviter",
   trRowTds "上家",
   trRowTds "上级",
   trRowTds "推荐人",
   trRowTds "Referrer",
   trRowTds "Sponsor",
   divClassLi "userinfo" "邀请人",
   divClassLi "profile" "邀请人",
   divIdLi "outer" "邀请人",
   bareLi "邀请人",
   divClassLi "userinfo" "Inviter",
   divClassLi "profile" "Inviter",
   divIdLi "outer" "Inviter",
   bareLi "Inviter",
   listClassLi "ul" "userinfo" "邀请人",
   listClassLi "ul" "profile" "邀请人",
   listClassLi "ul" "userdetails" "邀请人",
   listClassLi "ul" "userinfo" "Inviter",
   listClassLi "ul" "profile" "Inviter",
   listClassLi "ul" "userdetails" "Inviter",
   listClassLi "ol" "userinfo" "邀请人",
   listClassLi "ol" "profile" "邀请人",
   listClassLi "ol" "userdetails" "邀请人",
   listClassLi "ol" "userinfo" "Inviter",
   listClassLi "ol" "profile" "Inviter",
   listClassLi "ol" "userdetails" "Inviter",
   liInner "邀请人" "span",
   liInner "Inviter" "span",
   liInner "邀请人" "div",
   liInner "Inviter" "div",
   xpathGenericFsCn,
   anyExactFs "邀请人",
   anyContainsFs "Inviter",
   anyExactFs "Inviter",
   anyContainsParent "邀请人",
   anyContainsParent "Inviter",
   anyContainsFoll1 "邀请人",
   anyContainsFoll1 "Inviter",
   anyExactFoll1 "邀请人",
   anyExactFoll1 "Inviter",
   anyContainsFollText1 "邀请人",
   anyContainsFollText1 "Inviter",
   anyExactFollText1 "邀请人",
   anyExactFollText1 "Inviter",
   trContains "邀请人",
   trContains "Inviter",
   tagContains "div" "邀请人",
   tagContains "div" "Inviter",
   tagContains "span" "邀请人",
   tagContains "span" "Inviter",
   tagContains "p" "邀请人",
   tagContains "p" "Inviter",
   tagClassEq "div" "inviter",
   tagClassEq "span" "inviter",
   tagClassContains "div" "inviter",
   tagClassContains "span" "inviter",
   tagIdEq "div" "inviter",
   tagIdEq "span" "inviter",
   tagClassEq "p" "inviter",
   tagIdEq "p" "inviter",
   divClassCAny "info" "邀请人",
   divClassCAny "info" "Inviter",
   divClassCAny "details" "邀请人",
   divClassCAny "details" "Inviter",
   divClassCAny "user" "邀请人",
   divClassCAny "user" "Inviter",
   divClassCAny "profile" "邀请人",
   divClassCAny "profile" "Inviter",
   divClassCAny "member" "邀请人",
   divClassCAny "member" "Inviter",
   bodyAnyFs "邀请人",
   bodyAnyFs "Inviter",
   divIdAnyFs "content" "邀请人",
   divIdAnyFs "content" "Inviter",
   divClassAnyFs "container" "邀请人",
   divClassAnyFs "container" "Inviter",
   divClassAnyFs "wrapper" "邀请人",
   divClassAnyFs "wrapper" "Inviter",
   anyContainsFsText "邀请人",
   anyContainsFsText "Inviter",
   anyExactFsText "邀请人",
   anyExactFsText "Inviter",
   anyContainsFs "上家",
   anyContainsFs "上级",
   anyContainsFs "推荐人",
   anyContainsFoll1 "上家",
   anyContainsFoll1 "上级",
   anyContainsFoll1 "推荐人",
   anyExactFs "上家",
   anyExactFs "上级",
   anyExactFs "推荐人",
   anyExactFoll1 "上家",
   anyExactFoll1 "上级",
   anyExactFoll1 "推荐人",
   anyContainsFsText "上家",
   anyContainsFsText "上级",
   anyContainsFsText "推荐人",
   anyExactFsText "上家",
   anyExactFsText "上级",
   anyExactFsText "推荐人",
   anyContainsFs "Referrer",
   anyContainsFs "Sponsor",
   anyContainsFoll1 "Referrer",
   anyContainsFoll1 "Sponsor",
   anyExactFs "Referrer",
   anyExactFs "Sponsor",
   anyExactFoll1 "Referrer",
   anyExactFoll1 "Sponsor",
   anyContainsFsText "Referrer",
   anyContainsFsText "Sponsor",
   anyExactFsText "Referrer",
   anyExactFsText "Sponsor",
   anyContainsFs "邀请人信息",
   anyContainsFs "邀请人资料",
   anyContainsFs "邀请我的人",
   anyContainsFoll1 "邀请人信息",
   anyContainsFoll1 "邀请人资料",
   anyContainsFoll1 "邀请我的人",
   anyContainsFs "邀请人ID",
   anyContainsFoll1 "邀请人ID",
   anyContainsFs "注册来源",
   anyContainsFoll1 "注册来源",
   anyContainsFs "Inviter Info",
   anyContainsFs "Inviter Details",
   anyContainsFs "Who Invited Me",
   anyContainsFoll1 "Inviter Info",
   anyContainsFoll1 "Inviter Details",
   anyContainsFoll1 "Who Invited Me",
   anyContainsFs "Inviter ID",
   anyContainsFoll1 "Inviter ID",
   anyContainsFs "Registration Source",
   anyContainsFoll1 "Registration Source"]

/-- Result of the rule loop of `get_inviter_info` (lines 330-346): the
first rule with a non-empty node set wins and its first node is taken. -/
def selectFirst (doc : Html) : List (List Step) → Option Path
  | [] => none
  | r :: rs =>
    match evalFromRoot doc r with
    | [] => selectFirst doc rs
    | q :: _ => some q

/-- The selected inviter element (`inviter_element`/`found_xpath` loop). -/
def selectInviter (doc : Html) : Option Path := selectFirst doc inviter_xpaths

/-! ### Email rule list (`__get_user_email`, sites/nexusphp.py lines 697-717) -/

/-- What an email rule extracts: `@href` attribute strings of the selected
`a` elements, or the text of selected text nodes. -/
inductive EOut where
  | hrefs
  | texts
deriving Repr, DecidableEq

/-- One entry of `email_xpaths`. -/
structure ERule where
  steps : List Step
  out : EOut
deriving Repr, DecidableEq

/-- Rule `//td[…'邮箱'…]/following-sibling::td[1]//a/@href` shapes. -/
def emailTdHref (pred : XPred) : ERule :=
  { steps := [{ axis := .descendant, test := .tag "td", pred := pred }, fsTd1,
              { axis := .descendant, test := .tag "a", pred := .top }],
    out := .hrefs }

/-- Rule `//td[…'邮箱'…]/following-sibling::td[1]/text()` shapes. -/
def emailTdText (pred : XPred) : ERule :=
  { steps := [{ axis := .descendant, test := .tag "td", pred := pred }, fsTd1,
              { axis := .child, test := .anyText, pred := .top }],
    out := .texts }

/-- Rule `//div[…]//li[contains(text(), '邮箱')]//a/@href` shapes. -/
def emailDivLiHref (contPred : XPred) : ERule :=
  { steps := [{ axis := .descendant, test := .tag "div", pred := contPred },
              { axis := .descendant, test := .tag "li", pred := .textContains "邮箱" },
              { axis := .descendant, test := .tag "a", pred := .top }],
    out := .hrefs }

/-- Rule `//div[…]//li[contains(text(), '邮箱')]/text()` shapes. -/
def emailDivLiText (contPred : XPred) : ERule :=
  { steps := [{ axis := .descendant, test := .tag "div", pred := contPred },
              { axis := .descendant, test := .tag "li", pred := .textContains "邮箱" },
              { axis := .child, test := .anyText, pred := .top }],
    out := .texts }

/-- The `email_xpaths` list, entry by entry in source order. -/
def email_xpaths : List ERule :=
  [emailTdHref (.conj (.attrEq "class" "rowhead nowrap") (.textEq "邮箱")),
   emailTdHref (.conj (.attrEq "class" "rowhead") (.textEq "邮箱")),
   emailTdHref (.textEq "邮箱"),
   emailTdHref (.conj (.attrEq "class" "rowhead") (.textContains "邮箱")),
   emailTdText (.textEq "邮箱"),
   emailTdText (.conj (.attrEq "class" "rowhead") (.textContains "邮箱")),
   emailDivLiHref (.attrEq "class" "userinfo"),
   emailDivLiHref (.attrEq "class" "profile"),
   emailDivLiHref (.attrEq "id" "outer"),
   { steps := [{ axis := .descendant, test := .tag "li", pred := .textContains "邮箱" },
               { axis := .descendant, test := .tag "a", pred := .top }],
     out := .hrefs },
   emailDivLiText (.attrEq "class" "userinfo"),
   emailDivLiText (.attrEq "class" "profile"),
   emailDivLiText (.attrEq "id" "outer"),
   { steps := [{ axis := .descendant, test := .tag "li", pred := .textContains "邮箱" },
               { axis := .child, test := .anyText, pred := .top }],
     out := .texts },
   { steps := [{ axis := .descendant, test := .anyElem, pred := .textContains "邮箱" },
               { axis := .followingSibling, test := .anyElem, pred := .top },
               { axis := .child, test := .anyText, pred := .top }],
     out := .texts }]

/-- Evaluate one email rule to the list of strings lxml would return
(attribute nodes for `/@href`, text nodes for `/text()`). -/
def evalEmailRule (doc : Html) (r : ERule) : List String :=
  let ps := evalFromRoot doc r.steps
  match r.out with
  | .hrefs => ps.filterMap (fun q => (getNode doc q).bind (fun n => getAttr n "href"))
  | .texts => ps.filterMap (fun q => (getNode doc q).bind textOf)

/-! ### Name extraction and normalization (sites/nexusphp.py lines 394-601)

The extraction phases of `get_inviter_info` after an inviter element has
been selected: link-based name extraction, label splitting, the
text-node fallbacks, the cleaning block, the `匿名` short circuit, ID
extraction and the optional email lookup.  The Python `NameError` that
line 517 raises when `non_label_nodes` is empty (leaving
`meaningful_nodes` unbound) is modelled as `none`; unicode `\w` and
`isalnum` are modelled as ASCII alphanumerics plus the CJK block
`一-龥`, which covers every character class the plugin's label
and placeholder sets use.
-/

/-- First `some` produced by `f` along a list. -/
def firstSomeL {α β : Type} (l : List α) (f : α → Option β) : Option β :=
  match l with
  | [] => none
  | a :: as =>
    match f a with
    | some b => some b
    | none => firstSomeL as f

/-- One row of the `inviter_labels` table (fullwidth-colon form, ASCII
colon form, bare label). -/
structure LabelTriple where
  cn : String
  en : String
  bare : String
deriving Repr, DecidableEq

/-- The `inviter_labels` list (lines 408-422), in source order. -/
def inviterLabels : List LabelTriple :=
  [⟨"邀请人：", "邀请人:", "邀请人"⟩,
   ⟨"Inviter：", "Inviter:", "Inviter"⟩,
   ⟨"上家：", "上家:", "上家"⟩,
   ⟨"上级：", "上级:", "上级"⟩,
   ⟨"推荐人：", "推荐人:", "推荐人"⟩,
   ⟨"Referrer：", "Referrer:", "Referrer"⟩,
   ⟨"Sponsor：", "Sponsor:", "Sponsor"⟩,
   ⟨"邀请人信息：", "邀请人信息:", "邀请人信息"⟩,
   ⟨"邀请人资料：", "邀请人资料:", "邀请人资料"⟩,
   ⟨"邀请我的人：", "邀请我的人:", "邀请我的人"⟩,
   ⟨"Inviter Info：", "Inviter Info:", "Inviter Info"⟩,
   ⟨"Inviter Details：", "Inviter Details:", "Inviter Details"⟩,
   ⟨"Who Invited Me：", "Who Invited Me:", "Who Invited Me"⟩]

/-- Text of `.//a/b/text()` below the element: descendant `a` elements,
their `b` children, their text children. -/
def abTexts (e : Html) : List String :=
  (strictDescendants e).flatMap (fun a =>
    if tagOf a == some "a" then
      (childrenOf a).flatMap (fun b =>
        if tagOf b == some "b" then textChildren b else [])
    else [])

/-- Text of `.//a//text()` below the element. -/
def aTexts (e : Html) : List String :=
  (strictDescendants e).flatMap (fun a =>
    if tagOf a == some "a" then descTexts a else [])

/-- Link-based name extraction (lines 425-441): prefer the first
`a/b/text()` node, else the first stripped non-`mailto:` link text. -/
def rawNameFromLinks (e : Html) : String :=
  match abTexts e with
  | s :: _ => pyStrip s
  | [] =>
    (((aTexts e).map pyStrip).find? (fun t =>
      t != "" && !(strStarts t "mailto:"))).getD ""

/-- Label-splitting extraction over the element's full text
(lines 447-473): for the first label contained in the text, split on the
fullwidth-colon form, then the ASCII-colon form, then the bare label;
an empty split result moves on to the next label. -/
def labelSplitName (ft : String) : String :=
  (firstSomeL inviterLabels (fun t =>
    if strContains ft t.bare then
      let vc := if strContains ft t.cn then pyStrip (afterFirst ft t.cn)
                else if strContains ft t.en then pyStrip (afterFirst ft t.en)
                else ""
      let v := if vc != "" then vc else pyStrip (afterFirst ft t.bare)
      if v != "" then some v else none
    else none)).getD ""

/-- Whether a string contains any bare inviter label. -/
def containsAnyLabel (s : String) : Bool :=
  inviterLabels.any (fun t => strContains s t.bare)

/-- Text-node-sequence scan (lines 485-497): from each label-bearing node
take the first later node that carries no label. -/
def seqScanGo : List String → String
  | [] => ""
  | n :: rest =>
    if containsAnyLabel n then
      match rest.find? (fun m => !containsAnyLabel m) with
      | some m => m
      | none => seqScanGo rest
    else seqScanGo rest

/-- Placeholder list of the `meaningful_nodes` filter (line 510). -/
def meaningfulPlaceholders : List String :=
  ["无", "None", "未知", "Unknown", "匿名", "Anonymous", "-", "--", "---",
   "N/A", "na", "NA", "none", "unknown"]

/-- The token list `":：,.;，。；\"\'\[\]()（）【】-_ ".split()` of line 512:
Python `.split()` leaves a single multi-character token (with literal
backslashes from the invalid string escapes), so membership of a single
character in it is always false. -/
def punctTokens : List String := [":：,.;，。；\"'\\[\\]()（）【】-_"]

/-- CJK unified ideograph range `一-龥` used by the plugin's
regexes. -/
def isCJK (c : Char) : Bool := 0x4E00 ≤ c.toNat && c.toNat ≤ 0x9FA5

/-- Model of Python `str.isalnum` for the characters the plugin handles:
ASCII alphanumerics and CJK ideographs. -/
def pyIsAlnum (c : Char) : Bool := c.isAlphanum || isCJK c

/-- Model of the regex class `\w` (plus the explicit CJK range): ASCII
alphanumerics, underscore and CJK ideographs. -/
def pyWordC (c : Char) : Bool := c.isAlphanum || c == '_' || isCJK c

/-- The `meaningful_nodes` filter of lines 508-513. -/
def meaningfulPred (n : String) : Bool :=
  !(meaningfulPlaceholders.contains n) && pyStrip n != "" &&
    !((pyStrip n).data.all (fun c => punctTokens.contains (chStr [c])))

/-- Python `max(l, key=len)`: the first element of maximal length. -/
def maxByLen (l : List String) : String :=
  match l with
  | [] => ""
  | h :: t => t.foldl (fun b n => if strLen n > strLen b then n else b) h

/-- Python `max(l, key=lambda x: len(x.strip()))`. -/
def maxByTrimLen (l : List String) : String :=
  match l with
  | [] => ""
  | h :: t => t.foldl (fun b n => if strLen (pyStrip n) > strLen (pyStrip b) then n else b) h

/-- Node set `.//text()[1]` relative to the element at `p`, taking the
string of its first node. -/
def firstTextNodeStr (doc : Html) (p : Path) : Option String :=
  match evalSteps doc [{ axis := .descendant, test := .anyText, pred := .posEq1 }] [p] with
  | q :: _ => (getNode doc q).bind textOf
  | [] => none

/-- Text-node fallback phase (lines 479-548).  `none` models the
`NameError` of line 517 when every text node carries a label. -/
def phase3Name (doc : Html) (p : Path) (e : Html) : Option String :=
  let tns := ((descTexts e).map pyStrip).filter (fun t => t != "")
  if tns.isEmpty then some ""
  else
    let nm1 := seqScanGo tns
    if nm1 != "" then some nm1
    else
      let nonLabel := tns.filter (fun n => !containsAnyLabel n)
      if nonLabel.isEmpty then none
      else
        let meaningful := nonLabel.filter meaningfulPred
        let nm2 :=
          if !meaningful.isEmpty then
            let uc := meaningful.filter (fun n => decide (2 ≤ strLen n ∧ strLen n ≤ 50))
            if !uc.isEmpty then
              let an := uc.filter (fun n => n.data.any pyIsAlnum)
              if !an.isEmpty then maxByLen an else maxByLen uc
            else if !meaningful.isEmpty then maxByTrimLen meaningful
            else meaningful.head?.getD ""
          else ""
        if nm2 != "" then some nm2
        else
          match firstTextNodeStr doc p with
          | some s => some (pyStrip s)
          | none => some ""

/-- Raw name extraction (lines 396-548) for the element `e` at path `p`:
link texts first, then label splitting on the full text, then the
text-node fallbacks. -/
def extractRawName (doc : Html) (p : Path) (e : Html) : Option String :=
  let viaLinks := rawNameFromLinks e
  if viaLinks != "" then some viaLinks
  else
    let ft := pyStrip (strJoin (descTexts e))
    let viaLabels := labelSplitName ft
    if viaLabels != "" then some viaLabels
    else phase3Name doc p e

/-- Characters the trailing-punctuation regex
`[\s:：,.;，。；"\'\[\]()（）【】]+$` strips. -/
def isTrailPunct (c : Char) : Bool :=
  isWsC c || (":：,.;，。；\"'[]()（）【】".data.contains c)

/-- Fuel-driven scan for the removal of HTML entities `&[a-zA-Z0-9]+;`
(line 572), left to right and non-overlapping; each step consumes at
least one character, so fuel equal to the input length suffices. -/
def removeEntitiesGo : Nat → List Char → List Char
  | 0, cs => cs
  | _ + 1, [] => []
  | fuel + 1, c :: cs =>
    if c = '&' then
      if !(cs.takeWhile Char.isAlphanum).isEmpty ∧
         (cs.drop (cs.takeWhile Char.isAlphanum).length).head? = some ';' then
        removeEntitiesGo fuel (cs.drop ((cs.takeWhile Char.isAlphanum).length + 1))
      else c :: removeEntitiesGo fuel cs
    else c :: removeEntitiesGo fuel cs

/-- Removal of HTML entities `&[a-zA-Z0-9]+;` (line 572). -/
def removeEntitiesL (cs : List Char) : List Char := removeEntitiesGo cs.length cs

/-- Fuel-driven collapse of whitespace runs to a single space
(line 576). -/
def collapseWsGo : Nat → List Char → List Char
  | 0, cs => cs
  | _ + 1, [] => []
  | fuel + 1, c :: cs =>
    if isWsC c then ' ' :: collapseWsGo fuel (cs.dropWhile isWsC)
    else c :: collapseWsGo fuel cs

/-- Collapse whitespace runs to a single space (line 576). -/
def collapseWsL (cs : List Char) : List Char := collapseWsGo cs.length cs

/-- Character kept by the final regex `[^\w一-龥\-_.@]+` removal
(line 580). -/
def keepNameC (c : Char) : Bool :=
  pyWordC c || c == '-' || c == '_' || c == '.' || c == '@'

/-- Placeholder list of the final emptiness check (line 589). -/
def namePlaceholders : List String :=
  ["", "无", "None", "未知", "Unknown", "匿名", "Anonymous", "-", "--", "---"]

/-- Name-cleaning block (lines 551-590): strip every contained label
(all thirteen rows, colon forms first), strip trailing punctuation,
remove HTML entities, collapse whitespace, remove special characters;
when nothing changed, collapse a placeholder value to the empty string. -/
def cleanName (nm : String) : String :=
  if nm == "" then nm
  else
    let original := nm
    let n1 := inviterLabels.foldl (fun acc t =>
      if strContains acc t.cn then pyStrip (afterFirst acc t.cn)
      else if strContains acc t.en then pyStrip (afterFirst acc t.en)
      else if strContains acc t.bare then pyStrip (afterFirst acc t.bare)
      else acc) nm
    let n2 := chStr (((pyStrip n1).data.reverse.dropWhile isTrailPunct).reverse)
    let n3 := chStr (removeEntitiesL n2.data)
    let n4 := pyStrip (chStr (collapseWsL n3.data))
    let n5 := chStr (n4.data.filter keepNameC)
    if original == n5 then (if namePlaceholders.contains n5 then "" else n5) else n5

/-- Fuel-driven search for the regex `id=([0-9]+)`: at each position,
when `id=` is directly followed by at least one digit, capture the digit
run; else move one character forward.  Each step consumes one character,
so fuel equal to the input length suffices. -/
def reIdGo : Nat → List Char → Option String
  | 0, _ => none
  | fuel + 1, cs =>
    match cs with
    | 'i' :: 'd' :: '=' :: rest =>
      if (rest.takeWhile Char.isDigit).isEmpty then reIdGo fuel ('d' :: '=' :: rest)
      else some (chStr (rest.takeWhile Char.isDigit))
    | _ :: rest => reIdGo fuel rest
    | [] => none

/-- Python `re.search(r"id=([0-9]+)", s)` returning the captured digits. -/
def reSearchIdDigits (s : String) : Option String := reIdGo s.data.length s.data

/-- ID extraction (lines 603-639): collect `.//a/@href`, prefer the first
stripped link containing `id=` (else the first link), then parse the
digits after the last `id=` up to the next `&`, falling back to the
`id=([0-9]+)` regex. -/
def extractId (e : Html) : String :=
  let links := (strictDescendants e).filterMap (fun a =>
    if tagOf a == some "a" then getAttr a "href" else none)
  match links with
  | [] => ""
  | l0 :: _ =>
    let found := match (links.map pyStrip).find? (fun l => strContains l "id=") with
      | some l => l
      | none => pyStrip l0
    if strContains found "id=" then
      let idPart := pyStrip (beforeFirst (afterLast found "id=") "&")
      if isDigits idPart then idPart
      else
        match reSearchIdDigits found with
        | some d => d
        | none => ""
    else ""

/-- Model of `__get_user_email` (lines 652-748) from the parsed inviter
profile page (`none` when the request failed, had a non-200 status or the
page did not parse): first email rule with a non-empty result wins,
`mailto:` prefixes are dropped, and `label:value` texts are split at the
first colon. -/
def get_user_email (pg : Option Html) : String :=
  match pg with
  | none => ""
  | some doc =>
    let et := (firstSomeL email_xpaths (fun r =>
      match evalEmailRule doc r with
      | [] => none
      | s :: _ => some (pyStrip s))).getD ""
    if et == "" then ""
    else if strStarts et "mailto:" then pyStrip (chStr (et.data.drop 7))
    else if strContains et "邮箱" then
      if strContains et "：" then pyStrip (secondChunk et "：")
      else if strContains et ":" then pyStrip (secondChunk et ":")
      else et
    else et

/-- Extracted inviter record (the dictionary the handlers return). -/
structure InviterRecord where
  inviter_name : String
  inviter_id : String
  inviter_email : String
deriving Repr, DecidableEq

/-- Extraction pipeline of `NexusPHPInviterInfoHandler.get_inviter_info`
from the parsed profile page onward (lines 148-650).  `emailFetch`
supplies the parsed page of `userdetails.php?id=<inviter_id>`.  The
boolean records whether that email lookup was performed.  `none` models
an exception escaping the extraction (a text-node rule match, on which
the subsequent `inviter_element.xpath` attribute access raises, or the
line-517 `NameError`). -/
def nexus_get_inviter_info (doc : Html) (emailFetch : String → Option Html) :
    Option (InviterRecord × Bool) :=
  match selectInviter doc with
  | none => some ({ inviter_name := "无", inviter_id := "", inviter_email := "" }, false)
  | some p =>
    match getNode doc p with
    | none => none
    | some (.text _) => none
    | some (.elem t attrs cs) =>
      match extractRawName doc p (Html.elem t attrs cs) with
      | none => none
      | some raw =>
        if cleanName raw == "匿名" then
          some ({ inviter_name := "匿名", inviter_id := "", inviter_email := "" }, false)
        else if extractId (Html.elem t attrs cs) == "" then
          some ({ inviter_name := cleanName raw,
                  inviter_id := extractId (Html.elem t attrs cs),
                  inviter_email := "" }, false)
        else
          some ({ inviter_name := cleanName raw,
                  inviter_id := extractId (Html.elem t attrs cs),
                  inviter_email :=
                    get_user_email (emailFetch (extractId (Html.elem t attrs cs))) }, true)

/-! ### Regex scanners

Small matchers over `List Char` used to embed the regular expressions of
`is_nexusphp_site` and `_get_user_id`.  A matcher consumes input at one
position; `scanFirstB`/`scanFirstP` try every position left to right
(Python `re.search`), `scanAllP` collects non-overlapping matches
(Python `re.findall`).
-/

/-- Consume a literal, optionally case-insensitively (ASCII). -/
def mLit (lit : List Char) (icase : Bool) : List Char → Option (List Char)
  | cs =>
    match lit, cs with
    | [], rest => some rest
    | _ :: _, [] => none
    | a :: as, c :: rest =>
      if (if icase then lowerC a == lowerC c else a == c) then mLit as icase rest
      else none

/-- Consume one or more whitespace characters (`\s+`). -/
def mWs1 : List Char → Option (List Char)
  | c :: rest => if isWsC c then some (rest.dropWhile isWsC) else none
  | [] => none

/-- Consume `:` or `=` (the class `[:=]`). -/
def mColonEq : List Char → Option (List Char)
  | c :: rest => if c == ':' || c == '=' then some rest else none
  | [] => none

/-- Consume a quote character (the class `["\']`). -/
def mQuote : List Char → Option (List Char)
  | c :: rest => if c == '"' || c == '\'' then some rest else none
  | [] => none

/-- Consume one or more digits (`\d+`), capturing them. -/
def mDigits1 (cs : List Char) : Option (String × List Char) :=
  let ds := cs.takeWhile Char.isDigit
  if ds.isEmpty then none else some (chStr ds, cs.drop ds.length)

/-- Try a recognizer at every position (Python `re.search`, success
only). -/
def scanFirstB (m : List Char → Option (List Char)) : List Char → Bool
  | [] => (m []).isSome
  | c :: cs => (m (c :: cs)).isSome || scanFirstB m cs

/-- Try a capturing matcher at every position, returning the first
capture (Python `re.search` group 1). -/
def scanFirstP (m : List Char → Option (String × List Char)) : List Char → Option String
  | [] => (m []).map Prod.fst
  | c :: cs =>
    match m (c :: cs) with
    | some r => some r.1
    | none => scanFirstP m cs

/-- Fuel-driven collection of all non-overlapping captures, left to
right (Python `re.findall`); a match resumes after its end, a failure
advances one character, so fuel equal to the input length suffices for
the matchers used here (which always consume at least one character). -/
def scanAllGo (m : List Char → Option (String × List Char)) : Nat → List Char → List String
  | 0, _ => []
  | _ + 1, [] => []
  | fuel + 1, c :: cs =>
    match m (c :: cs) with
    | some (v, rest) => v :: scanAllGo m fuel rest
    | none => scanAllGo m fuel cs

/-- All non-overlapping captures, left to right (Python `re.findall`). -/
def scanAllP (m : List Char → Option (String × List Char)) (cs : List Char) : List String :=
  scanAllGo m cs.length cs

/-! ### NexusPHP fingerprinting (`is_nexusphp_site`, sites/nexusphp.py lines 28-86) -/

/-- Recognizer for `class=["\']V["\']` (case-insensitive). -/
def pClassQuoted (v : String) (cs : List Char) : Option (List Char) :=
  (mLit "class=".data true cs).bind fun r1 =>
    (mQuote r1).bind fun r2 =>
      (mLit v.data true r2).bind fun r3 => mQuote r3

/-- Recognizer for `var\s+NAME\s*=` (case-insensitive). -/
def pVarAssign (name : String) (cs : List Char) : Option (List Char) :=
  (mLit "var".data true cs).bind fun r1 =>
    (mWs1 r1).bind fun r2 =>
      (mLit name.data true r2).bind fun r3 =>
        match r3.dropWhile isWsC with
        | '=' :: r4 => some r4
        | _ => none

/-- Recognizer for `href=["\']TARGET` after at least one non-`>`
character. -/
def anchorInner (target : String) (r : List Char) : Option (List Char) :=
  (mLit "href=".data true r).bind fun r2 =>
    (mQuote r2).bind fun r3 => mLit target.data true r3

/-- Scan the `[^>]+` window after `<a`: each consumed character must not
be `>`; after each consumed character try `href=["\']TARGET`. -/
def anchorScanGo (target : String) : List Char → Option (List Char)
  | [] => none
  | c :: cs =>
    if c == '>' then none
    else
      match anchorInner target cs with
      | some r => some r
      | none => anchorScanGo target cs

/-- Recognizer for `<a[^>]+href=["\']TARGET` (case-insensitive). -/
def pAnchorHref (target : String) (cs : List Char) : Option (List Char) :=
  (mLit "<a".data true cs).bind (anchorScanGo target)

/-- Recognizer for `powered\s+by\s+nexusphp` (case-insensitive). -/
def pPoweredBy (cs : List Char) : Option (List Char) :=
  (mLit "powered".data true cs).bind fun r1 =>
    (mWs1 r1).bind fun r2 =>
      (mLit "by".data true r2).bind fun r3 =>
        (mWs1 r3).bind fun r4 => mLit "nexusphp".data true r4

/-- Recognizer for `NexusPHP\s+v\d+\.\d+` (case-insensitive). -/
def pNexusVer (cs : List Char) : Option (List Char) :=
  (mLit "nexusphp".data true cs).bind fun r1 =>
    (mWs1 r1).bind fun r2 =>
      (mLit "v".data true r2).bind fun r3 =>
        (mDigits1 r3).bind fun d1 =>
          match d1.2 with
          | '.' :: r4 => (mDigits1 r4).map Prod.snd
          | _ => none

/-- The `nexusphp_features` list (lines 38-78), in source order, as
search functions over the page body. -/
def nexusphpFeatures : List (List Char → Bool) :=
  [scanFirstB (pClassQuoted "userdetails"),
   scanFirstB (pClassQuoted "userinfo"),
   scanFirstB (pClassQuoted "profile"),
   scanFirstB (pClassQuoted "rowhead"),
   scanFirstB (pClassQuoted "torrents"),
   scanFirstB (pClassQuoted "torrenttable"),
   scanFirstB (pVarAssign "userid"),
   scanFirstB (pVarAssign "username"),
   scanFirstB (pVarAssign "passhash"),
   scanFirstB (pVarAssign "baseurl"),
   scanFirstB (pAnchorHref "userdetails.php?id="),
   scanFirstB (pAnchorHref "torrents.php"),
   scanFirstB (pAnchorHref "upload.php"),
   scanFirstB (pAnchorHref "messages.php"),
   scanFirstB (pAnchorHref "friends.php"),
   scanFirstB (mLit "邀请人".data true),
   scanFirstB (mLit "Inviter".data true),
   scanFirstB (mLit "上传量".data true),
   scanFirstB (mLit "下载量".data true),
   scanFirstB (mLit "做种时间".data true),
   scanFirstB (mLit "下载时间".data true),
   scanFirstB (mLit "分享率".data true),
   scanFirstB (mLit "Share Ratio".data true),
   scanFirstB (mLit "Uploaded".data true),
   scanFirstB (mLit "Downloaded".data true),
   scanFirstB (mLit "Seeding Time".data true),
   scanFirstB (mLit "Leeching Time".data true),
   scanFirstB pPoweredBy,
   scanFirstB pNexusVer,
   scanFirstB (mLit "nexusphp.com".data true)]

/-- Model of `is_nexusphp_site`: false on empty content, else true when
any feature regex matches. -/
def is_nexusphp_site (body : String) : Bool :=
  if body.data.isEmpty then false
  else nexusphpFeatures.any (fun f => f body.data)

/-! ### Orchestrator (`__get_all_site_inviter_info`, __init__.py lines 682-1049)

The result store is the JSON file `site_data.json` read at run start
(lines 694-696) and rewritten after every successful per-site extraction
(line 991); it is modelled as an association list keyed by site display
name, with `storeInsert` matching the Python dict update (replace in
place, else append).  Per-site processing is driven by a `SiteEnv`
describing what the environment does for this site: whether
`get_handler_for_site` produced a handler, what `get_page_source` returns
for the fingerprint-probe URLs, and the outcome of
`handler.get_inviter_info` (`none` covering a `None` result and a raised
exception alike, both of which store nothing).  The cooperative abort
flag is an oracle consulted at the three checkpoints of the loop in
order; a set flag stops the run and leaves the store as it is.
-/

/-- Stored per-site record, including the `get_time` timestamp. -/
structure StoredRec where
  inviter_name : String
  inviter_id : String
  inviter_email : String
  get_time : String
deriving Repr, DecidableEq

/-- The persisted result store. -/
abbrev Store := List (String × StoredRec)

/-- Lookup by site name (first binding wins, as in a Python dict without
duplicate keys). -/
def storeLookup (st : Store) (k : String) : Option StoredRec :=
  (st.find? (fun kv => kv.1 == k)).map (fun kv => kv.2)

/-- Python `site_data[name] = entry`: replace in place, else append. -/
def storeInsert : Store → String → StoredRec → Store
  | [], k, v => [(k, v)]
  | (k', v') :: rest, k, v =>
    if k' == k then (k', v) :: rest else (k', v') :: storeInsert rest k v

/-- Site tuple the orchestrator reads from the host's site manager. -/
structure Site where
  id : Nat
  name : String
  url : String
deriving Repr, DecidableEq

/-- Python `s.rstrip("/")`. -/
def rstripSlash (s : String) : String :=
  chStr ((s.data.reverse.dropWhile (fun c => c == '/')).reverse)

/-- The five fingerprint-probe URLs of lines 905-911. -/
def testUrls (s : Site) : List String :=
  let u := rstripSlash s.url
  [u ++ "/userdetails.php?id=0", u ++ "/my.php", u ++ "/profile.php",
   u ++ "/usercp.php", u]

/-- What the environment does for one site during a run. -/
structure SiteEnv where
  hasHandler : Bool
  fetchPage : String → String
  extractResult : Option InviterRecord

/-- Fingerprint probing of lines 912-919: the first probe URL whose
fetched content is non-empty and matches a NexusPHP feature selects the
generic handler. -/
def probeIsNexus (ev : SiteEnv) (s : Site) : Bool :=
  (testUrls s).any (fun u => ev.fetchPage u != "" && is_nexusphp_site (ev.fetchPage u))

/-- In-site handler-resolution and extraction stage (lines 849-975) for a
site that got past the skip checks: find a handler (`hasHandler`),
otherwise probe for a NexusPHP fingerprint; `none` means the abort flag
was observed at one of the in-site checkpoints, otherwise the extraction
outcome and the next checkpoint counter are returned.  A site with no
handler and no fingerprint match continues with no extraction
(`some (none, _)`). -/
def siteStage (ev : SiteEnv) (s : Site) (abort : Nat → Bool) (k : Nat) :
    Option (Option InviterRecord × Nat) :=
  if ev.hasHandler then
    if abort (k + 1) then none else some (ev.extractResult, k + 2)
  else if abort (k + 1) then none
  else if probeIsNexus ev s then
    if abort (k + 2) then none else some (ev.extractResult, k + 3)
  else some (none, k + 2)

/-- Per-site loop of `__get_all_site_inviter_info` (lines 765-1002),
returning the final store together with the names of the sites that were
actually processed (that got past the selection and existing-record
skips).  `abort` is consulted at the loop-head checkpoint and at the two
in-site checkpoints, numbered consecutively by `k`. -/
def runLoopAux (selected : List String) (force : Bool) (env : Site → SiteEnv)
    (abort : Nat → Bool) (now : Site → String) :
    List Site → Nat → Store → Store × List String
  | [], _, st => (st, [])
  | s :: rest, k, st =>
    if abort k then (st, [])
    else if !selected.isEmpty && !(selected.contains (toString s.id)) then
      runLoopAux selected force env abort now rest (k + 1) st
    else if !force && (storeLookup st s.name).isSome then
      runLoopAux selected force env abort now rest (k + 1) st
    else
      match siteStage (env s) s abort k with
      | none => (st, [s.name])
      | some (info?, k') =>
        let st' := match info? with
          | some info =>
            storeInsert st s.name
              { inviter_name := info.inviter_name, inviter_id := info.inviter_id,
                inviter_email := info.inviter_email, get_time := now s }
          | none => st
        let r := runLoopAux selected force env abort now rest k' st'
        (r.1, s.name :: r.2)

/-- One orchestrator run with instrumentation: final store plus the names
of the processed sites. -/
def runOnceTraced (sites : List Site) (selected : List String) (force : Bool)
    (env : Site → SiteEnv) (abort : Nat → Bool) (now : Site → String)
    (st0 : Store) : Store × List String :=
  runLoopAux selected force env abort now sites 0 st0

/-- One orchestrator run: the store is loaded at run start (`st0`) and
returned merged with the run's new results. -/
def runOnce (sites : List Site) (selected : List String) (force : Bool)
    (env : Site → SiteEnv) (abort : Nat → Bool) (now : Site → String)
    (st0 : Store) : Store :=
  (runOnceTraced sites selected force env abort now st0).1

theorem storeLookup_insert_ne (st : Store) (k k' : String) (v : StoredRec)
    (h : k' ≠ k) : storeLookup (storeInsert st k v) k' = storeLookup st k' := by
  induction st with
  | nil =>
    simp only [storeInsert, storeLookup, List.find?]
    have : (k == k') = false := by
      simp only [beq_eq_false_iff_ne]; exact fun e => h e.symm
    simp [this]
  | cons kv rest ih =>
    obtain ⟨k0, v0⟩ := kv
    simp only [storeInsert]
    by_cases h0 : k0 == k
    · simp only [h0, if_true]
      have hk0 : k0 = k := by simpa using h0
      have h1 : (k0 == k') = false := by
        simp only [beq_eq_false_iff_ne]; intro e; exact h (e ▸ hk0.symm ▸ rfl)
      simp [storeLookup, List.find?, h1]
    · simp only [h0, if_false]
      by_cases h1 : k0 == k'
      · simp [storeLookup, List.find?, h1]
      · simp only [storeLookup, List.find?] at ih ⊢
        simp only [Bool.not_eq_true] at h0 h1
        simp [h1, ih]

theorem storeLookup_insert_isSome (st : Store) (k k' : String) (v : StoredRec)
    (h : (storeLookup st k').isSome) :
    (storeLookup (storeInsert st k v) k').isSome := by
  by_cases he : k' = k
  · subst he
    induction st with
    | nil => simp [storeInsert, storeLookup, List.find?]
    | cons kv rest ih =>
      obtain ⟨k0, v0⟩ := kv
      simp only [storeInsert]
      by_cases h0 : k0 == k'
      · simp [h0, storeLookup, List.find?]
      · simp only [h0, if_false]
        simp only [storeLookup, List.find?, h0] at h ⊢
        exact ih h
  · rwa [storeLookup_insert_ne st k k' v he]

/-! ### Per-page user-id extraction (`_get_user_id`, sites/__init__.py lines 151-609)

The claims concern the per-page cascade, methods 0-14 of the source,
applied to one fetched candidate page.  A `Page` bundles what one
iteration of the candidate-page loop works with: the raw response text
(used by the regex methods), the parsed soup (used by the selector
methods), the final response URL, the session cookie jar, and the
candidate path that was requested.  `parsedJson` models the outcome of
`json.loads` on the (JSONP-stripped) body — `none` standing for a
`JSONDecodeError` — since JSON parsing itself belongs to the standard
library, not to this code.
-/

/-- JSON value, as produced by `json.loads`. -/
inductive Json where
  | null
  | bool (b : Bool)
  | num (n : Int)
  | str (s : String)
  | arr (elems : List Json)
  | obj (fields : List (String × Json))

/-- The `id_keys` list of lines 300-306 (including the duplicate entries
of the source). -/
def idKeys : List String :=
  ["userid", "uid", "id", "user_id", "member_id", "memberid",
   "useridstr", "uidstr", "idstr", "user_id_str", "member_id_str",
   "user", "member", "account", "profile", "current_user", "me",
   "user_iden", "member_iden", "identity", "identification",
   "username", "user_name", "membername", "member_name", "name",
   "login", "loginname", "login_name", "nickname", "nick_name",
   "handle", "handle_name", "screenname", "screen_name"]

/-- The nested-structure key list of lines 326-328. -/
def nestedKeys : List String :=
  ["user", "member", "account", "profile", "current_user", "me",
   "login_user", "authenticated_user", "logged_in_user",
   "user_info", "member_info", "user_profile", "member_profile"]

/-- Scalar branch of `find_user_id` (lines 310-318): a non-blank
non-digit string is returned as is, a digit string is returned, a blank
one is skipped. -/
def fuiScalar (s : String) : Option String :=
  if pyStrip s != "" && !isDigits s then some s
  else if isDigits s then some s
  else none

mutual
/-- The recursive `find_user_id` of lines 295-342 over a JSON value. -/
def find_user_id : Json → Option String
  | .obj fs => fuiFields fs
  | .arr xs => fuiArr xs
  | _ => none
/-- Field iteration of `find_user_id`: for each key try the id-key scalar
branch, then the nested-structure branch, then the unconditional
recursion into the value. -/
def fuiFields : List (String × Json) → Option String
  | [] => none
  | (k, v) :: rest =>
    let a : Option String :=
      if idKeys.contains (strLower k) then
        match v with
        | .str s => fuiScalar s
        | .num n => fuiScalar (intStr n)
        | .bool b => fuiScalar (if b then "True" else "False")
        | .obj fs2 => fuiFields fs2
        | _ => none
      else none
    let b : Option String :=
      if nestedKeys.contains (strLower k) then
        match v with
        | .obj fs2 => fuiFields fs2
        | _ => none
      else none
    match a with
    | some r => some r
    | none =>
      match b with
      | some r => some r
      | none =>
        match find_user_id v with
        | some r => some r
        | none => fuiFields rest
/-- List iteration of `find_user_id`. -/
def fuiArr : List Json → Option String
  | [] => none
  | x :: xs =>
    match find_user_id x with
    | some r => some r
    | none => fuiArr xs
end

/-- Exact-key lookup in a JSON object (Python `key in json_data`). -/
def jsonGet (fs : List (String × Json)) (k : String) : Option Json :=
  ((fs.find? (fun kv => kv.1 == k))).map (fun kv => kv.2)

/-- Lines 344-357: `find_user_id` on the whole document, then the
GraphQL `data`/`payload`/`response` containers (first present key only). -/
def findUserIdTop (j : Json) : Option String :=
  match find_user_id j with
  | some r => some r
  | none =>
    match j with
    | .obj fs =>
      if (jsonGet fs "data").isSome then (jsonGet fs "data").bind find_user_id
      else if (jsonGet fs "payload").isSome then (jsonGet fs "payload").bind find_user_id
      else if (jsonGet fs "response").isSome then (jsonGet fs "response").bind find_user_id
      else none
    | _ => none

/-- Inner capture of the JSONP regex `\((.*)\)` without DOTALL: at each
`(` take the segment up to the end of the line and capture up to the last
`)` inside it, else move on. -/
def lastParenSplit (seg : List Char) : Option (List Char) :=
  match seg.reverse.dropWhile (fun c => c != ')') with
  | ')' :: inner => some inner.reverse
  | _ => none

/-- Scan for the JSONP wrapper match of lines 277-281. -/
def jsonpInner : List Char → Option (List Char)
  | [] => none
  | c :: rest =>
    if c = '(' then
      match lastParenSplit (rest.takeWhile (fun x => x != '\n')) with
      | some inner => some inner
      | none => jsonpInner rest
    else jsonpInner rest

/-- One fetched candidate page as seen by the extraction methods. -/
structure Page where
  body : String
  soup : Html
  parsedJson : Option Json
  responseUrl : String
  cookies : List (String × String)
  pageName : String

/-- All element nodes of the soup (the subtrees CSS selectors search),
in document order, root included. -/
def allElems (h : Html) : List Html :=
  (h :: strictDescendants h).filter (fun n => (tagOf n).isSome)

/-- CSS `a[href*="SUB"]`: anchors whose `href` attribute contains the
substring. -/
def selectAnchors (soup : Html) (sub : String) : List Html :=
  (allElems soup).filter (fun e =>
    tagOf e == some "a" &&
    (match getAttr e "href" with
     | some h => strContains h sub
     | none => false))

/-- Method 0 (lines 270-365): JSONP unwrapping, the JSON-shape check, and
the recursive key search on the parsed value. -/
def method0JsonUserId (p : Page) : Option String :=
  let rt0 := pyStrip p.body
  let rt :=
    if strStarts rt0 "(" && strContains (strLower rt0) "callback" then
      match jsonpInner rt0.data with
      | some inner => pyStrip (chStr inner)
      | none => rt0
    else rt0
  if strStarts rt "\x7b" || strStarts rt "[" then
    match p.parsedJson with
    | some j => findUserIdTop j
    | none => none
  else none

/-- Method 1 (lines 370-377): first `a[href*="userdetails.php"]` anchor,
digits of `id=(\d+)` in its `href`. -/
def method1UserdetailsLink (p : Page) : Option String :=
  match (selectAnchors p.soup "userdetails.php").head? with
  | some a => reSearchIdDigits ((getAttr a "href").getD "")
  | none => none

/-- Method 2 (lines 379-386): first `a[href*="my.php"]` anchor, else
first `a[href*="profile.php"]` anchor. -/
def method2ProfileLink (p : Page) : Option String :=
  let link :=
    match (selectAnchors p.soup "my.php").head? with
    | some a => some a
    | none => (selectAnchors p.soup "profile.php").head?
  match link with
  | some a => reSearchIdDigits ((getAttr a "href").getD "")
  | none => none

/-- Candidate-path names that enable method 3 (lines 389-390). -/
def m3Pages : List String :=
  ["userdetails.php", "my.php", "profile.php", "usercp.php", "u.php",
   "member.php", "user.php", "userinfo.php"]

/-- Method 3 (lines 388-395): when the candidate path looks like a
profile page, take `id=(\d+)` from the final response URL. -/
def method3ResponseUrl (p : Page) : Option String :=
  if m3Pages.any (fun q => strContains p.pageName q) then
    reSearchIdDigits p.responseUrl
  else none

/-- JS variable matcher for the method-4 patterns
`(?:var|const|let)\s+NAME\s*[:=]\s*(\d+)(?:;|\s)` (case-sensitive;
without `decl` the declaration-keyword part is absent). -/
def pJsVar (decl : Bool) (name : String) (cs : List Char) : Option (String × List Char) :=
  let start : Option (List Char) :=
    if decl then
      match mLit "var".data false cs with
      | some r => mWs1 r
      | none =>
        match mLit "const".data false cs with
        | some r => mWs1 r
        | none =>
          match mLit "let".data false cs with
          | some r => mWs1 r
          | none => none
    else some cs
  start.bind fun r1 =>
    (mLit name.data false r1).bind fun r2 =>
      (mColonEq (r2.dropWhile isWsC)).bind fun r3 =>
        (mDigits1 (r3.dropWhile isWsC)).bind fun d =>
          match d.2 with
          | c :: rest2 => if c == ';' || isWsC c then some (d.1, rest2) else none
          | [] => none

/-- Variable names of the declared method-4 patterns (lines 401-414), in
order. -/
def jsVarNamesDecl : List String :=
  ["userid", "USERID", "UserId", "userID", "uid", "UID",
   "memberid", "MEMBERID", "MemberID", "memberID", "myid", "MYID", "MyId"]

/-- Variable names of the declaration-free method-4 patterns
(lines 416-423), in order. -/
def jsVarNamesNoDecl : List String :=
  ["userid", "USERID", "UserId", "userID", "uid", "UID", "memberid", "MEMBERID"]

/-- Method 4 (lines 397-432): the 21 JavaScript variable patterns in
source order, first match wins. -/
def method4JsVars (p : Page) : Option String :=
  firstSomeL
    (jsVarNamesDecl.map (fun n => (true, n)) ++
     jsVarNamesNoDecl.map (fun n => (false, n)))
    (fun dn => scanFirstP (pJsVar dn.1 dn.2) p.body.data)

/-- Matcher for `NAME\s*[:=]\s*(\d+)`. -/
def pNameColonEqDigits (icase : Bool) (name : String) (cs : List Char) :
    Option (String × List Char) :=
  (mLit name.data icase cs).bind fun r1 =>
    (mColonEq (r1.dropWhile isWsC)).bind fun r2 =>
      mDigits1 (r2.dropWhile isWsC)

/-- Method 5 (lines 434-444): case-insensitive loose variable match for
`userid`, else the concatenated `uid`/`memberid`/`myid` match lists,
first element. -/
def method5JsLoose (p : Page) : Option String :=
  match scanFirstP (pNameColonEqDigits true "userid") p.body.data with
  | some v => some v
  | none =>
    match scanFirstP (pNameColonEqDigits true "uid") p.body.data with
    | some v => some v
    | none =>
      match scanFirstP (pNameColonEqDigits true "memberid") p.body.data with
      | some v => some v
      | none => scanFirstP (pNameColonEqDigits true "myid") p.body.data

/-- Method 6 (lines 446-456): every `a[href*="usercp.php"]` anchor, first
`id=(\d+)` hit. -/
def method6UsercpLinks (p : Page) : Option String :=
  firstSomeL (selectAnchors p.soup "usercp.php")
    (fun a => reSearchIdDigits ((getAttr a "href").getD ""))

/-- Explicit cookie-name keywords of lines 464-467 (with the duplicate of
the source). -/
def cookieKw : List String :=
  ["userid", "user_id", "id_user", "memberid", "member_id", "id_member",
   "uid", "id", "myid", "user_id", "user_id_", "user_id_cookie",
   "login_user_id", "current_user_id"]

/-- Method 7 (lines 458-478): digit-valued cookies with id-like names;
`user`/`member`-named cookies additionally need a value length strictly
between 1 and 10. -/
def method7Cookies (p : Page) : Option String :=
  firstSomeL p.cookies (fun kv =>
    if isDigits kv.2 then
      if cookieKw.any (fun w => strContains (strLower kv.1) w) then some kv.2
      else if ["user", "member"].any (fun w => strContains (strLower kv.1) w) then
        if decide (1 < strLen kv.2 ∧ strLen kv.2 < 10) then some kv.2 else none
      else none
    else none)

/-- Matcher for `user=?(\d+)`. -/
def pUserOptEqDigits (cs : List Char) : Option (String × List Char) :=
  (mLit "user".data false cs).bind fun r1 =>
    match r1 with
    | '=' :: r2 => mDigits1 r2
    | _ => mDigits1 r1

/-- Matcher for `LIT=(\d+)` (case-sensitive). -/
def pLitEqDigits (lit : String) (cs : List Char) : Option (String × List Char) :=
  (mLit (lit ++ "=").data false cs).bind mDigits1

/-- Method 8 (lines 480-509): every `a[href]` anchor; per anchor the
`id=`, `user=?`, `uid=` and `memberid=` probes in order. -/
def method8AllLinks (p : Page) : Option String :=
  let anchors := (allElems p.soup).filter (fun e =>
    tagOf e == some "a" && (getAttr e "href").isSome)
  firstSomeL anchors (fun a =>
    let href := (getAttr a "href").getD ""
    let hl := strLower href
    let s1 := if strContains href "id=" then reSearchIdDigits href else none
    match s1 with
    | some v => some v
    | none =>
      let s2 := if strContains hl "user" && strContains href "=" then
          scanFirstP pUserOptEqDigits hl.data
        else none
      match s2 with
      | some v => some v
      | none =>
        let s3 := if strContains hl "uid=" then scanFirstP (pLitEqDigits "uid") hl.data
          else none
        match s3 with
        | some v => some v
        | none =>
          if strContains hl "memberid=" then scanFirstP (pLitEqDigits "memberid") hl.data
          else none)

/-- Hidden-field keywords of lines 518-520. -/
def hiddenKw : List String :=
  ["userid", "user_id", "id_user", "memberid", "member_id", "id_member",
   "user", "member", "uid", "id", "myid", "login_user", "current_user"]

/-- Method 9 (lines 511-525): `input[type="hidden"]` fields with an
all-digit value and an id-like `name` or `id` attribute. -/
def method9HiddenFields (p : Page) : Option String :=
  let fields := (allElems p.soup).filter (fun e =>
    tagOf e == some "input" && getAttr e "type" == some "hidden")
  firstSomeL fields (fun f =>
    let nm := (getAttr f "name").getD ""
    let ida := (getAttr f "id").getD ""
    let v := (getAttr f "value").getD ""
    if v != "" && isDigits v &&
       hiddenKw.any (fun w => strContains (strLower nm) w || strContains (strLower ida) w)
    then some v else none)

/-- BeautifulSoup `element.string`, read as the single text child when
there is exactly one child and it is text, else the empty string. -/
def soupString (e : Html) : String :=
  match childrenOf e with
  | [.text s] => s
  | _ => ""

/-- Title text `soup.title.string if soup.title else ""` of line 528. -/
def soupTitleText (soup : Html) : String :=
  match (allElems soup).find? (fun e => tagOf e == some "title") with
  | some t => soupString t
  | none => ""

/-- Matcher for `LIT(\d+)`, optionally with `\s*` between. -/
def pTitleLitDigits (lit : String) (ws : Bool) (cs : List Char) :
    Option (String × List Char) :=
  (mLit lit.data false cs).bind fun r1 =>
    mDigits1 (if ws then r1.dropWhile isWsC else r1)

/-- Matcher for `User\s*ID(\d+)`. -/
def pUserWsIDDigits (cs : List Char) : Option (String × List Char) :=
  (mLit "User".data false cs).bind fun r1 =>
    (mLit "ID".data false (r1.dropWhile isWsC)).bind mDigits1

/-- Method 10 (lines 527-536): the eight title patterns in source
order. -/
def method10Title (p : Page) : Option String :=
  let t := (soupTitleText p.soup).data
  match scanFirstP (pTitleLitDigits "用户" false) t with
  | some v => some v
  | none =>
    match scanFirstP (pTitleLitDigits "User" true) t with
    | some v => some v
    | none =>
      match scanFirstP (pTitleLitDigits "会员" false) t with
      | some v => some v
      | none =>
        match scanFirstP (pTitleLitDigits "Member" true) t with
        | some v => some v
        | none =>
          match scanFirstP (pTitleLitDigits "ID" false) t with
          | some v => some v
          | none =>
            match scanFirstP (pTitleLitDigits "ID" true) t with
            | some v => some v
            | none =>
              match scanFirstP (pTitleLitDigits "用户ID" false) t with
              | some v => some v
              | none => scanFirstP pUserWsIDDigits t

/-- Matcher for `NAME=(\d+)`, case-insensitive. -/
def pNameEqDigitsI (name : String) (cs : List Char) : Option (String × List Char) :=
  (mLit (name ++ "=").data true cs).bind mDigits1

/-- Names of the `NAME\s*[:=]\s*(\d+)` findall patterns of method 11
(lines 539-543), in order. -/
def m11ColonNames : List String := ["userid", "user", "id", "memberid", "member"]

/-- Names of the `NAME=(\d+)` findall patterns of method 11
(lines 544-555), in order. -/
def m11EqNames : List String :=
  ["userid", "user", "id", "memberid", "member", "uid", "user_id",
   "member_id", "loginid", "userloginid", "login_user_id", "current_user_id"]

/-- Increment the count of a candidate, first-occurrence order preserved
(Python dict insertion order). -/
def bumpCount : List (String × Nat) → String → List (String × Nat)
  | [], c => [(c, 1)]
  | (k, n) :: rest, c =>
    if k == c then (k, n + 1) :: rest else (k, n) :: bumpCount rest c

/-- Python `max(d, key=d.get)`: the first key of maximal count. -/
def argmaxCount (counts : List (String × Nat)) : String :=
  match counts with
  | [] => ""
  | kv :: rest => (rest.foldl (fun b x => if x.2 > b.2 then x else b) kv).1

/-- Method 11 (lines 538-567): concatenate all findall matches of the 17
identifier patterns, count the candidates with length strictly between 1
and 12, and pick the most frequent one (first occurrence wins ties). -/
def method11Majority (p : Page) : Option String :=
  let all_ids :=
    (m11ColonNames.flatMap (fun n => scanAllP (pNameColonEqDigits true n) p.body.data)) ++
    (m11EqNames.flatMap (fun n => scanAllP (pNameEqDigitsI n) p.body.data))
  let counts := all_ids.foldl (fun acc c =>
    if isDigits c && decide (1 < strLen c ∧ strLen c < 12) then bumpCount acc c
    else acc) []
  match counts with
  | [] => none
  | _ :: _ => some (argmaxCount counts)

/-- Method 12 (lines 569-579): `meta` tags whose `name` contains both
`user` and `id` and whose `content` is all digits. -/
def method12MetaTags (p : Page) : Option String :=
  let metas := (allElems p.soup).filter (fun e => tagOf e == some "meta")
  firstSomeL metas (fun m =>
    let content := (getAttr m "content").getD ""
    let nm := (getAttr m "name").getD ""
    if strContains (strLower nm) "user" && strContains (strLower nm) "id" &&
       isDigits content
    then some content else none)

/-- Matcher for `"KEY"\s*:\s*(\d+)`, case-insensitive. -/
def pQuotedKeyDigits (key : String) (cs : List Char) : Option (String × List Char) :=
  (mLit ("\"" ++ key ++ "\"").data true cs).bind fun r1 =>
    match r1.dropWhile isWsC with
    | ':' :: r2 => mDigits1 (r2.dropWhile isWsC)
    | _ => none

/-- Method 13 (lines 581-597): per script tag, the quoted
`userid`/`id`/`uid` JSON-ish keys. -/
def method13Scripts (p : Page) : Option String :=
  let scripts := (allElems p.soup).filter (fun e => tagOf e == some "script")
  firstSomeL scripts (fun sc =>
    let c := soupString sc
    if c != "" then
      match scanFirstP (pQuotedKeyDigits "userid") c.data with
      | some v => some v
      | none =>
        match scanFirstP (pQuotedKeyDigits "id") c.data with
        | some v => some v
        | none => scanFirstP (pQuotedKeyDigits "uid") c.data
    else none)

/-- Whitespace splitting of a class attribute value. -/
def splitWsAux : List Char → List Char → List String
  | [], acc => if acc.isEmpty then [] else [chStr acc.reverse]
  | c :: cs, acc =>
    if isWsC c then
      if acc.isEmpty then splitWsAux cs []
      else chStr acc.reverse :: splitWsAux cs []
    else splitWsAux cs (c :: acc)

/-- Class tokens of an element. -/
def classTokensOf (e : Html) : List String :=
  splitWsAux ((getAttr e "class").getD "").data []

mutual
/-- Serialization `str(elem)` used by method 14: tags with attributes in
stored order, text verbatim. -/
def htmlRender : Html → String
  | .text s => s
  | .elem t attrs cs =>
    "<" ++ t ++ strJoin (attrs.map (fun kv => " " ++ kv.1 ++ "=\"" ++ kv.2 ++ "\"")) ++
    ">" ++ htmlRenderList cs ++ "</" ++ t ++ ">"
/-- Serialization of a child list. -/
def htmlRenderList : List Html → String
  | [] => ""
  | c :: cs => htmlRender c ++ htmlRenderList cs
end

/-- Class names of the method-14 panel selector (line 600). -/
def m14Classes : List String :=
  ["userpanel", "user-info", "profile-info", "user-header", "avatar-container"]

/-- Method 14 (lines 599-609): elements carrying one of the panel
classes; `id=(\d+)` over their serialized HTML. -/
def method14UserPanels (p : Page) : Option String :=
  let panels := (allElems p.soup).filter (fun e =>
    (classTokensOf e).any (fun t => m14Classes.contains t))
  firstSomeL panels (fun e => reSearchIdDigits (htmlRender e))

/-- First-of-two combinator mirroring the `if user_id: break` chaining of
the method blocks. -/
def oElse (a : Option String) (b : Unit → Option String) : Option String :=
  match a with
  | some v => some v
  | none => b ()

/-- The complete per-page extraction cascade of `_get_user_id`
(lines 267-609), methods 0-14 in source order. -/
def extract_user_id_from_page (p : Page) : Option String :=
  oElse (method0JsonUserId p) fun _ =>
  oElse (method1UserdetailsLink p) fun _ =>
  oElse (method2ProfileLink p) fun _ =>
  oElse (method3ResponseUrl p) fun _ =>
  oElse (method4JsVars p) fun _ =>
  oElse (method5JsLoose p) fun _ =>
  oElse (method6UsercpLinks p) fun _ =>
  oElse (method7Cookies p) fun _ =>
  oElse (method8AllLinks p) fun _ =>
  oElse (method9HiddenFields p) fun _ =>
  oElse (method10Title p) fun _ =>
  oElse (method11Majority p) fun _ =>
  oElse (method12MetaTags p) fun _ =>
  oElse (method13Scripts p) fun _ =>
  method14UserPanels p

/-! ### Handler registry (module_loader.py lines 77-107, sites/mteam.py lines 16-25)

`ModuleLoader.get_handler_for_site` iterates the loaded handler classes
and calls `handler_class.match(site_url)` on each; an exception makes the
handler count as a non-match (lines 101-104).  A handler's `matchUrl` is
therefore `Option Bool`, `none` standing for a raised exception.  The two
classes the loader finds under `sites/` are `MTeamInviterInfoHandler`,
whose `match` is a classmethod implementing `url and "m-team" in url`,
and `NexusPHPInviterInfoHandler`, whose `match` is an instance method:
calling it on the class with a single argument raises a `TypeError`
(and its body would return `False` anyway), so its registry behaviour is
the exception path. -/

/-- A loaded site-handler class as the registry sees it. -/
structure SiteHandler where
  hname : String
  matchUrl : String → Option Bool

/-- Body of `MTeamInviterInfoHandler.match`: `url and "m-team" in url`. -/
def mteam_match (url : String) : Bool := url != "" && strContains url "m-team"

/-- Body of `NexusPHPInviterInfoHandler.match` (line 26): always
`False`. -/
def nexusphp_match (_url : String) : Bool := false

/-- The M-Team handler entry: `match` is a classmethod, so the registry
call succeeds and returns `mteam_match`. -/
def mteamHandler : SiteHandler :=
  { hname := "MTeamInviterInfoHandler", matchUrl := fun u => some (mteam_match u) }

/-- The NexusPHP handler entry: `match` is an instance method, so
`handler_class.match(site_url)` raises `TypeError`, modelled as
`none`. -/
def nexusHandler : SiteHandler :=
  { hname := "NexusPHPInviterInfoHandler", matchUrl := fun _ => none }

/-- Model of `ModuleLoader.get_handler_for_site`: `None` on an empty URL
or an empty handler list, else the first handler whose `match` call
returns true; a raising `match` counts as non-match. -/
def get_handler_for_site (url : String) (handlers : List SiteHandler) :
    Option SiteHandler :=
  if url = "" then none
  else if handlers.isEmpty then none
  else handlers.find? (fun h => (h.matchUrl url).getD false)

/-! ### Concrete inputs used by the claim checks -/

/-- Label cell `<td class="rowhead">邀请人</td>`. -/
def tdLabelCell : Html := .elem "td" [("class", "rowhead")] [.text "邀请人"]

/-- Value cell `<td><a href="userdetails.php?id=42"><b>alice</b></a></td>`. -/
def tdAliceCell : Html :=
  .elem "td" [] [.elem "a" [("href", "userdetails.php?id=42")] [.elem "b" [] [.text "alice"]]]

/-- Parse of the claim-C8 fragment as lxml wraps it
(`html > body > td td`). -/
def docFragment : Html := .elem "html" [] [.elem "body" [] [tdLabelCell, tdAliceCell]]

/-- Document with no inviter-label occurrence at all. -/
def docPlain : Html := .elem "html" [] [.elem "body" [] [.elem "p" [] [.text "hello"]]]

/-- Value cell whose link text is `anonymous`. -/
def tdAnonEnCell : Html :=
  .elem "td" [] [.elem "a" [("href", "userdetails.php?id=42")] [.elem "b" [] [.text "anonymous"]]]

/-- Document whose extracted name normalizes to `anonymous` while the
matched cell carries a link with `id=42`. -/
def docAnonEn : Html := .elem "html" [] [.elem "body" [] [tdLabelCell, tdAnonEnCell]]

/-- Value cell whose link text is `匿名:` (cleaning strips the colon). -/
def tdAnonCnCell : Html :=
  .elem "td" [] [.elem "a" [("href", "userdetails.php?id=42")] [.elem "b" [] [.text "匿名:"]]]

/-- Document whose extracted name normalizes to the code's `匿名`
sentinel. -/
def docAnonCn : Html := .elem "html" [] [.elem "body" [] [tdLabelCell, tdAnonCnCell]]

/-- Soup of the claim-C6 counterexample page: a `user_id` meta tag plus a
body whose text repeats `id=123`. -/
def soupMetaMajority : Html :=
  .elem "html" []
    [.elem "head" [] [.elem "meta" [("name", "user_id"), ("content", "777")] []],
     .elem "body" [] [.text "id=123 id=123"]]

/-- Claim-C6 counterexample page: methods 0-10 find nothing, the majority
vote counts `123`, the meta scan would find `777`. -/
def pageMetaMajority : Page :=
  { body := "<html><head><meta name=\"user_id\" content=\"777\"></head><body>id=123 id=123</body></html>",
    soup := soupMetaMajority, parsedJson := none,
    responseUrl := "https://example.org/home", cookies := [], pageName := "home" }

/-- Soup with a single id-named hidden form field. -/
def soupHiddenField : Html :=
  .elem "html" []
    [.elem "body" []
      [.elem "input" [("type", "hidden"), ("name", "userid"), ("value", "555")] []]]

/-- Page on which only the hidden-field scan (and nothing before it)
finds a value. -/
def pageHiddenField : Page :=
  { body := "<html><body><input type=\"hidden\" name=\"userid\" value=\"555\"></body></html>",
    soup := soupHiddenField, parsedJson := none,
    responseUrl := "https://example.org/home", cookies := [], pageName := "home" }

/-- Site used by the orchestrator checks. -/
def siteAlpha : Site := { id := 1, name := "SiteA", url := "https://a.example/" }

/-- Site with no handler and no fingerprint match. -/
def siteBeta : Site := { id := 2, name := "SiteB", url := "https://b.example" }

/-- Environment in which every site has a handler that extracts a
record. -/
def envExtracts : Site → SiteEnv := fun _ =>
  { hasHandler := true, fetchPage := fun _ => "",
    extractResult := some { inviter_name := "bob", inviter_id := "7", inviter_email := "" } }

/-- Environment in which no handler matches and every probe fetch returns
empty content. -/
def envUnsupported : Site → SiteEnv := fun _ =>
  { hasHandler := false, fetchPage := fun _ => "", extractResult := none }

/-- An always-clear abort flag. -/
def noAbort : Nat → Bool := fun _ => false

/-- Pre-existing store entry for `SiteB`. -/
def betaOldRec : StoredRec :=
  { inviter_name := "old", inviter_id := "9", inviter_email := "o@e.org",
    get_time := "2023-05-05 05:05:05" }

/-! ### Claim C1 (HTTP client errors and retries) -/

/-- Claim C1, counterexample: on a constant 404 environment with the
default `retry = 3`, `get_page_source` issues three requests and sleeps
four seconds in total before returning the empty string — not one
attempt with no retry delay as the claim states. -/
theorem c1_counterexample :
    get_page_source (fun _ => Attempt.response 404 "Not Found") 3 =
      { result := "", attemptsMade := 3, delaySeconds := 4 } ∧
    ¬((get_page_source (fun _ => Attempt.response 404 "Not Found") 3).attemptsMade = 1 ∧
      (get_page_source (fun _ => Attempt.response 404 "Not Found") 3).delaySeconds = 0) := by
  decide

/-- Claim C1, amended: when every attempt of a fetch yields an HTTP
client-error status in 400-499, `get_page_source` treats it like any
other failure: it makes exactly `retry` attempts (default 3) with the
fixed 2-second delay between consecutive attempts and then returns the
empty string. -/
theorem c1_client_error_retries (env : Nat → Attempt) (retry : Nat)
    (h : ∀ i, isClientError (env i) = true) :
    get_page_source env retry =
      { result := "", attemptsMade := retry, delaySeconds := 2 * (retry - 1) } := by
  have h' : ∀ j, attemptBody (env j) = none :=
    fun j => attemptBody_none_of_clientError (h j)
  unfold get_page_source
  rw [fetchGo_all_fail env h' retry 0 0]
  simp

/-- Witness for `c1_client_error_retries` at a constant-404 environment
with the default retry count. -/
theorem c1_client_error_retries_witness :
    (∀ i : Nat, isClientError ((fun _ => Attempt.response 404 "Not Found") i) = true) ∧
    get_page_source (fun _ => Attempt.response 404 "Not Found") 3 =
      { result := "", attemptsMade := 3, delaySeconds := 2 * (3 - 1) } :=
  ⟨fun _ => rfl, c1_client_error_retries (fun _ => Attempt.response 404 "Not Found") 3 (fun _ => rfl)⟩

/-! ### Claim C7 (retry exhaustion on transient failures) -/

/-- Claim C7: when every attempt fails with a connection error, timeout
or 5xx response, `get_page_source` makes exactly `retry` attempts
(the Python default is 3) with the fixed 2-second delay between
consecutive attempts — `2 * (retry - 1)` seconds in total — and then
returns the empty string; the trace is total, so no failure reaches the
caller. -/
theorem c7_transient_failures_exhaust_retries (env : Nat → Attempt) (retry : Nat)
    (h : ∀ i, isRetriableFailure (env i) = true) :
    get_page_source env retry =
      { result := "", attemptsMade := retry, delaySeconds := 2 * (retry - 1) } := by
  have h' : ∀ j, attemptBody (env j) = none :=
    fun j => attemptBody_none_of_retriable (h j)
  unfold get_page_source
  rw [fetchGo_all_fail env h' retry 0 0]
  simp

/-- Witness for `c7_transient_failures_exhaust_retries` at a constant
connection-reset environment with the default retry count 3. -/
theorem c7_transient_failures_witness :
    (∀ i : Nat, isRetriableFailure ((fun _ => Attempt.connectionError) i) = true) ∧
    get_page_source (fun _ => Attempt.connectionError) 3 =
      { result := "", attemptsMade := 3, delaySeconds := 2 * (3 - 1) } :=
  ⟨fun _ => rfl, c7_transient_failures_exhaust_retries (fun _ => Attempt.connectionError) 3 (fun _ => rfl)⟩

/-! ### Claim C2 (anonymity short circuit) -/

/-- Claim C2, counterexample: on a document whose extracted inviter name
normalizes to exactly `anonymous` — the claim's other rendering of the
anonymous sentinel — while the matched cell holds a link with `id=42`,
`get_inviter_info` returns inviter_id `42` and performs the inviter
profile fetch (flag `true`), instead of the empty id/email with no fetch
that the claim requires. -/
theorem c2_counterexample :
    nexus_get_inviter_info docAnonEn (fun _ => none) =
      some ({ inviter_name := "anonymous", inviter_id := "42", inviter_email := "" }, true) ∧
    ¬(({ inviter_name := "anonymous", inviter_id := "42", inviter_email := "" } : InviterRecord).inviter_id = "") := by
  constructor
  · decide
  · decide

/-- Claim C2, amended: the short circuit is keyed to the code's exact
Chinese sentinel only — whenever the returned record's name is `匿名`,
its inviter_id and inviter_email are empty and no inviter-profile fetch
was attempted; a name that normalizes to `anonymous`/`Anonymous` is not
short-circuited. -/
theorem c2_anonymity_short_circuit (doc : Html) (fetch : String → Option Html)
    (r : InviterRecord) (b : Bool)
    (h : nexus_get_inviter_info doc fetch = some (r, b))
    (hname : r.inviter_name = "匿名") :
    r.inviter_id = "" ∧ r.inviter_email = "" ∧ b = false := by
  unfold nexus_get_inviter_info at h
  split at h
  · simp only [Option.some.injEq, Prod.mk.injEq] at h
    obtain ⟨hr, hb⟩ := h
    subst hr
    exact absurd hname (by decide)
  · split at h
    · exact absurd h (by simp)
    · exact absurd h (by simp)
    · split at h
      · exact absurd h (by simp)
      · split at h
        · simp only [Option.some.injEq, Prod.mk.injEq] at h
          obtain ⟨hr, hb⟩ := h
          subst hr
          exact ⟨rfl, rfl, hb.symm⟩
        · next hnm =>
          split at h
          · simp only [Option.some.injEq, Prod.mk.injEq] at h
            obtain ⟨hr, hb⟩ := h
            subst hr
            simp only at hname
            exact absurd (by simpa using hname) hnm
          · simp only [Option.some.injEq, Prod.mk.injEq] at h
            obtain ⟨hr, hb⟩ := h
            subst hr
            simp only at hname
            exact absurd (by simpa using hname) hnm


/-- Witness for `c2_anonymity_short_circuit` on the document whose name
cleans to `匿名`: the record is the anonymous sentinel with empty id and
email and the email lookup flag is false. -/
theorem c2_anonymity_short_circuit_witness :
    nexus_get_inviter_info docAnonCn (fun _ => none) =
      some ({ inviter_name := "匿名", inviter_id := "", inviter_email := "" }, false) ∧
    (({ inviter_name := "匿名", inviter_id := "", inviter_email := "" } : InviterRecord).inviter_id = "" ∧
     ({ inviter_name := "匿名", inviter_id := "", inviter_email := "" } : InviterRecord).inviter_email = "" ∧
     false = false) :=
  ⟨by decide,
   c2_anonymity_short_circuit docAnonCn (fun _ => none)
     { inviter_name := "匿名", inviter_id := "", inviter_email := "" } false (by decide) rfl⟩

/-! ### Claim C3 (rule-cascade priority) -/

/-- Claim C3: the rule list is evaluated in its fixed order and the first
rule with at least one match wins; in particular, whenever both the exact
`rowhead` table-cell rule (the list's first entry) and the generic
any-element substring rule would match, the selected element is the first
node of the table-cell rule's result, never the generic rule's. -/
theorem c3_first_matching_rule_wins (doc : Html)
    (h1 : evalFromRoot doc xpathRowheadExactCn ≠ [])
    (_h2 : evalFromRoot doc xpathGenericFsCn ≠ []) :
    selectInviter doc = (evalFromRoot doc xpathRowheadExactCn).head? := by
  cases hq : evalFromRoot doc xpathRowheadExactCn with
  | nil => exact absurd hq h1
  | cons q qs =>
    unfold selectInviter inviter_xpaths
    simp only [selectFirst, hq, List.head?]

/-- Witness for `c3_first_matching_rule_wins` on the C8 fragment, where
both the table-cell rule and the generic substring rule match. -/
theorem c3_first_matching_rule_wins_witness :
    evalFromRoot docFragment xpathRowheadExactCn ≠ [] ∧
    evalFromRoot docFragment xpathGenericFsCn ≠ [] ∧
    selectInviter docFragment = (evalFromRoot docFragment xpathRowheadExactCn).head? :=
  ⟨by decide, by decide,
   c3_first_matching_rule_wins docFragment (by decide) (by decide)⟩

/-! ### Claim C8 (worked example fragment) -/

/-- Claim C8: on the fragment
`<td class="rowhead">邀请人</td><td><a href="userdetails.php?id=42"><b>alice</b></a></td>`
(whose pages carry no email field, here the inviter-profile fetch returns
the same fragment), the extraction yields name `alice` from the nested
emphasis tag, id `42` from the anchor query string, and an empty
email. -/
theorem c8_example_fragment :
    nexus_get_inviter_info docFragment (fun _ => some docFragment) =
      some ({ inviter_name := "alice", inviter_id := "42", inviter_email := "" }, true) := by
  decide

/-! ### Claim C9 (no-match sentinel) -/

theorem selectFirst_eq_none (doc : Html) :
    ∀ rules : List (List Step), (∀ r ∈ rules, evalFromRoot doc r = []) →
      selectFirst doc rules = none := by
  intro rules h
  induction rules with
  | nil => rfl
  | cons r rs ih =>
    have hr := h r (List.mem_cons_self r rs)
    simp only [selectFirst, hr]
    exact ih (fun x hx => h x (List.mem_cons_of_mem r hx))

/-- Claim C9: when no rule of the cascade matches anything in the parsed
page, `get_inviter_info` returns the sentinel record with name `无`
(the "none" sentinel) and empty id and email — a valid result, not a
failure. -/
theorem c9_no_match_sentinel (doc : Html) (fetch : String → Option Html)
    (h : ∀ r ∈ inviter_xpaths, evalFromRoot doc r = []) :
    nexus_get_inviter_info doc fetch =
      some ({ inviter_name := "无", inviter_id := "", inviter_email := "" }, false) := by
  have hs : selectInviter doc = none := selectFirst_eq_none doc inviter_xpaths h
  unfold nexus_get_inviter_info
  rw [hs]

/-- Witness for `c9_no_match_sentinel` on a page with no inviter-label
variant anywhere: all 160 rules yield the empty node set. -/
theorem c9_no_match_sentinel_witness :
    (∀ r ∈ inviter_xpaths, evalFromRoot docPlain r = []) ∧
    nexus_get_inviter_info docPlain (fun _ => none) =
      some ({ inviter_name := "无", inviter_id := "", inviter_email := "" }, false) :=
  ⟨by decide, c9_no_match_sentinel docPlain (fun _ => none) (by decide)⟩

/-! ### Claim C6 (user-id heuristic order) -/

/-- Claim C6, counterexample: on `pageMetaMajority` every method up to
the title scan finds nothing, the meta-tag scan would find `777`, yet the
cascade returns the majority vote's `123` — the meta-tag scan (method 12)
runs after the whole-page majority vote (method 11), not before it as the
claim states. -/
theorem c6_counterexample :
    extract_user_id_from_page pageMetaMajority = some "123" ∧
    method12MetaTags pageMetaMajority = some "777" ∧
    method11Majority pageMetaMajority = some "123" ∧
    method9HiddenFields pageMetaMajority = none ∧
    ("123" : String) ≠ "777" := by
  refine ⟨by decide, by decide, by decide, by decide, by decide⟩

/-- Claim C6, amended: the hidden-form-field scan (method 9) does run
before the whole-page majority vote (method 11), but the meta-tag scan
(method 12) runs after it: whenever methods 0 through 10 — the JSON
probe, the link scans, the response-URL check, the JavaScript-variable
scans, the cookie scan, the hidden-field scan and the title scan — all
find nothing and the majority vote finds a candidate, that candidate is
the cascade's result, regardless of what the meta-tag scan would
return. -/
theorem c6_majority_before_meta (p : Page) (v : String)
    (h0 : method0JsonUserId p = none)
    (h1 : method1UserdetailsLink p = none)
    (h2 : method2ProfileLink p = none)
    (h3 : method3ResponseUrl p = none)
    (h4 : method4JsVars p = none)
    (h5 : method5JsLoose p = none)
    (h6 : method6UsercpLinks p = none)
    (h7 : method7Cookies p = none)
    (h8 : method8AllLinks p = none)
    (h9 : method9HiddenFields p = none)
    (h10 : method10Title p = none)
    (h11 : method11Majority p = some v) :
    extract_user_id_from_page p = some v := by
  unfold extract_user_id_from_page
  rw [h0, h1, h2, h3, h4, h5, h6, h7, h8, h9, h10, h11]
  rfl

/-- Witness for `c6_majority_before_meta` on the counterexample page. -/
theorem c6_majority_before_meta_witness :
    method0JsonUserId pageMetaMajority = none ∧
    method9HiddenFields pageMetaMajority = none ∧
    method10Title pageMetaMajority = none ∧
    method11Majority pageMetaMajority = some "123" ∧
    extract_user_id_from_page pageMetaMajority = some "123" :=
  ⟨by decide, by decide, by decide, by decide,
   c6_majority_before_meta pageMetaMajority "123" (by decide) (by decide) (by decide)
     (by decide) (by decide) (by decide) (by decide) (by decide) (by decide) (by decide)
     (by decide) (by decide)⟩

/-! ### Claim C4 (unsupported sites leave the store untouched) -/

theorem runLoopAux_preserves_unsupported (selected : List String) (force : Bool)
    (env : Site → SiteEnv) (abort : Nat → Bool) (now : Site → String) (key : String) :
    ∀ (sites : List Site),
      (∀ t ∈ sites, t.name = key →
        (env t).hasHandler = false ∧ probeIsNexus (env t) t = false) →
      ∀ (k : Nat) (st : Store),
        storeLookup (runLoopAux selected force env abort now sites k st).1 key =
          storeLookup st key := by
  intro sites
  induction sites with
  | nil => intro _ k st; rfl
  | cons s rest ih =>
    intro h k st
    have hrest : ∀ t ∈ rest, t.name = key →
        (env t).hasHandler = false ∧ probeIsNexus (env t) t = false :=
      fun t ht => h t (List.mem_cons_of_mem s ht)
    unfold runLoopAux
    by_cases ha : abort k = true
    · simp only [ha, if_true]
    · simp only [ha, Bool.false_eq_true, if_false]
      by_cases hsel : (!selected.isEmpty && !(selected.contains (toString s.id))) = true
      · simp only [hsel, if_true]
        exact ih hrest (k + 1) st
      · simp only [hsel, Bool.false_eq_true, if_false]
        by_cases hskip : (!force && (storeLookup st s.name).isSome) = true
        · simp only [hskip, if_true]
          exact ih hrest (k + 1) st
        · simp only [hskip, Bool.false_eq_true, if_false]
          by_cases hname : s.name = key
          · have hs := h s (List.mem_cons_self s rest) hname
            have hstage : siteStage (env s) s abort k = none ∨
                siteStage (env s) s abort k = some (none, k + 2) := by
              unfold siteStage
              rw [hs.1, hs.2]
              by_cases hab : abort (k + 1) = true
              · simp [hab]
              · simp [hab]
            rcases hstage with hst | hst
            · rw [hst]
            · rw [hst]
              simp only
              exact ih hrest (k + 2) st
          · cases hst : siteStage (env s) s abort k with
            | none => rfl
            | some pr =>
              obtain ⟨info?, k'⟩ := pr
              cases info? with
              | none => exact ih hrest k' st
              | some info =>
                show storeLookup (runLoopAux selected force env abort now rest k' _).1 key =
                  storeLookup st key
                rw [ih hrest k' _]
                exact storeLookup_insert_ne st s.name key _ (fun e => hname e.symm)

/-- Claim C4: a site for which no handler matches and no fingerprint
probe succeeds contributes nothing to the store: its pre-existing entry
(if any) is exactly the entry after the run and no new entry is created
for its name; the run starts from the loaded prior store and only merges
new results into it. -/
theorem c4_unsupported_site_preserved (sites : List Site) (selected : List String)
    (force : Bool) (env : Site → SiteEnv) (abort : Nat → Bool) (now : Site → String)
    (st0 : Store) (s : Site) (_hmem : s ∈ sites)
    (h : ∀ t ∈ sites, t.name = s.name →
      (env t).hasHandler = false ∧ probeIsNexus (env t) t = false) :
    storeLookup (runOnce sites selected force env abort now st0) s.name =
      storeLookup st0 s.name :=
  runLoopAux_preserves_unsupported selected force env abort now s.name sites h 0 st0

/-- Witness for `c4_unsupported_site_preserved`: a run over the single
unsupported site `SiteB` leaves its previously stored record exactly
where it was. -/
theorem c4_unsupported_site_preserved_witness :
    siteBeta ∈ [siteBeta] ∧
    (∀ t ∈ [siteBeta], t.name = siteBeta.name →
      (envUnsupported t).hasHandler = false ∧ probeIsNexus (envUnsupported t) t = false) ∧
    storeLookup
      (runOnce [siteBeta] [] false envUnsupported noAbort (fun _ => "2024-06-01 00:00:00")
        [(siteBeta.name, betaOldRec)]) siteBeta.name =
      storeLookup [(siteBeta.name, betaOldRec)] siteBeta.name :=
  ⟨by decide, by decide,
   c4_unsupported_site_preserved [siteBeta] [] false envUnsupported noAbort
     (fun _ => "2024-06-01 00:00:00") [(siteBeta.name, betaOldRec)] siteBeta
     (by decide) (by decide)⟩

/-! ### Claim C5 (second run skips stored sites) -/

theorem runLoopAux_skips_stored (selected : List String) (env : Site → SiteEnv)
    (abort : Nat → Bool) (now : Site → String) (key : String) (r : StoredRec) :
    ∀ (sites : List Site) (k : Nat) (st : Store),
      storeLookup st key = some r →
      storeLookup (runLoopAux selected false env abort now sites k st).1 key = some r ∧
      key ∉ (runLoopAux selected false env abort now sites k st).2 := by
  intro sites
  induction sites with
  | nil => intro k st h; exact ⟨h, List.not_mem_nil key⟩
  | cons s rest ih =>
    intro k st h
    unfold runLoopAux
    by_cases ha : abort k = true
    · simp only [ha, if_true]
      exact ⟨h, List.not_mem_nil key⟩
    · simp only [ha, Bool.false_eq_true, if_false]
      by_cases hsel : (!selected.isEmpty && !(selected.contains (toString s.id))) = true
      · simp only [hsel, if_true]
        exact ih (k + 1) st h
      · simp only [hsel, Bool.false_eq_true, if_false]
        by_cases hname : s.name = key
        · have hskip : (!(false : Bool) && (storeLookup st s.name).isSome) = true := by
            rw [hname, h]; rfl
          simp only [hskip, if_true]
          exact ih (k + 1) st h
        · by_cases hskip : (!(false : Bool) && (storeLookup st s.name).isSome) = true
          · simp only [hskip, if_true]
            exact ih (k + 1) st h
          · simp only [hskip, Bool.false_eq_true, if_false]
            cases hst : siteStage (env s) s abort k with
            | none =>
              refine ⟨h, ?_⟩
              simp only [List.mem_singleton]
              exact fun e => hname e.symm
            | some pr =>
              obtain ⟨info?, k'⟩ := pr
              cases info? with
              | none =>
                simp only
                have := ih k' st h
                refine ⟨this.1, ?_⟩
                simp only [List.mem_cons]
                rintro (e | e)
                · exact hname e.symm
                · exact this.2 e
              | some info =>
                simp only
                have hlook : storeLookup
                    (storeInsert st s.name
                      { inviter_name := info.inviter_name, inviter_id := info.inviter_id,
                        inviter_email := info.inviter_email, get_time := now s }) key = some r := by
                  rw [storeLookup_insert_ne st s.name key _ (fun e => hname e.symm)]
                  exact h
                have := ih k' _ hlook
                refine ⟨this.1, ?_⟩
                simp only [List.mem_cons]
                rintro (e | e)
                · exact hname e.symm
                · exact this.2 e

/-- Claim C5: with force-refresh off, a second run over the same sites
with the same environment is idempotent for every site that got a record
stored by the first run: the second run skips it before any handler
resolution, fetch or extraction (its name is not in the processed list),
and its stored record — timestamp included — is byte-for-byte
unchanged. -/
theorem c5_second_run_skips_stored (sites : List Site) (selected : List String)
    (env : Site → SiteEnv) (abort1 abort2 : Nat → Bool) (now1 now2 : Site → String)
    (st0 : Store) (s : Site) (r : StoredRec)
    (h : storeLookup (runOnce sites selected false env abort1 now1 st0) s.name = some r) :
    storeLookup
      (runOnce sites selected false env abort2 now2
        (runOnce sites selected false env abort1 now1 st0)) s.name = some r ∧
    s.name ∉ (runOnceTraced sites selected false env abort2 now2
        (runOnce sites selected false env abort1 now1 st0)).2 :=
  runLoopAux_skips_stored selected env abort2 now2 s.name r sites 0
    (runOnce sites selected false env abort1 now1 st0) h

/-- Witness for `c5_second_run_skips_stored`: after a first run stores a
record for `SiteA`, the second run neither processes `SiteA` nor touches
its record. -/
theorem c5_second_run_skips_stored_witness :
    storeLookup (runOnce [siteAlpha] [] false envExtracts noAbort
        (fun _ => "2024-01-01 00:00:00") []) siteAlpha.name =
      some { inviter_name := "bob", inviter_id := "7", inviter_email := "",
             get_time := "2024-01-01 00:00:00" } ∧
    (storeLookup
      (runOnce [siteAlpha] [] false envExtracts noAbort (fun _ => "2024-01-02 00:00:00")
        (runOnce [siteAlpha] [] false envExtracts noAbort
          (fun _ => "2024-01-01 00:00:00") [])) siteAlpha.name =
      some { inviter_name := "bob", inviter_id := "7", inviter_email := "",
             get_time := "2024-01-01 00:00:00" } ∧
     siteAlpha.name ∉ (runOnceTraced [siteAlpha] [] false envExtracts noAbort
        (fun _ => "2024-01-02 00:00:00")
        (runOnce [siteAlpha] [] false envExtracts noAbort
          (fun _ => "2024-01-01 00:00:00") [])).2) :=
  ⟨by decide,
   c5_second_run_skips_stored [siteAlpha] [] envExtracts noAbort noAbort
     (fun _ => "2024-01-01 00:00:00") (fun _ => "2024-01-02 00:00:00") [] siteAlpha
     { inviter_name := "bob", inviter_id := "7", inviter_email := "",
       get_time := "2024-01-01 00:00:00" } (by decide)⟩

/-! ### Claim C10 (M-Team handler selection) -/

/-- Claim C10: for every URL containing `m-team`, handler selection
returns the dedicated M-Team handler whichever way the loader ordered the
two discovered handler classes (so never the generic NexusPHP engine);
the M-Team match predicate holds exactly for non-empty URLs containing
`m-team`; and a handler whose `match` call raises is treated as a
non-match — selection just moves on to the remaining handlers. -/
theorem c10_mteam_handler_selection (url : String)
    (h1 : strContains url "m-team" = true) (h2 : url ≠ "") :
    (∀ hs, hs = [mteamHandler, nexusHandler] ∨ hs = [nexusHandler, mteamHandler] →
        get_handler_for_site url hs = some mteamHandler) ∧
    (∀ u : String, mteam_match u = true ↔ (u ≠ "" ∧ strContains u "m-team" = true)) ∧
    (∀ (raising : SiteHandler) (rest : List SiteHandler),
        raising.matchUrl url = none →
        get_handler_for_site url (raising :: rest) = get_handler_for_site url rest) := by
  have hm : (mteamHandler.matchUrl url).getD false = true := by
    simp only [mteamHandler, mteam_match, Option.getD_some, Bool.and_eq_true, bne_iff_ne,
      ne_eq]
    exact ⟨h2, h1⟩
  have hn : (nexusHandler.matchUrl url).getD false = false := rfl
  refine ⟨?_, ?_, ?_⟩
  · rintro hs (rfl | rfl)
    · simp only [get_handler_for_site, if_neg h2, List.isEmpty_cons, Bool.false_eq_true,
        if_false, List.find?, hm]
    · simp only [get_handler_for_site, if_neg h2, List.isEmpty_cons, Bool.false_eq_true,
        if_false, List.find?, hm, hn]
  · intro u
    simp only [mteam_match, Bool.and_eq_true, bne_iff_ne, ne_eq]
  · intro raising rest hnone
    cases rest with
    | nil =>
      simp [get_handler_for_site, if_neg h2, List.find?, hnone]
    | cons a l =>
      simp only [get_handler_for_site, if_neg h2, List.isEmpty_cons, Bool.false_eq_true,
        if_false, List.find?, hnone, Option.getD_none]

/-- Witness for `c10_mteam_handler_selection` at the real M-Team base
URL, in the load order that tries the generic handler first. -/
theorem c10_mteam_handler_selection_witness :
    strContains "https://kp.m-team.cc" "m-team" = true ∧
    ("https://kp.m-team.cc" : String) ≠ "" ∧
    get_handler_for_site "https://kp.m-team.cc" [nexusHandler, mteamHandler] =
      some mteamHandler :=
  ⟨by decide, by decide,
   (c10_mteam_handler_selection "https://kp.m-team.cc" (by decide) (by decide)).1
     [nexusHandler, mteamHandler] (Or.inr rfl)⟩

end InviterInfo
